import Mathlib

/-!
Verification of the HMDA data-analysis assistant's orchestration core.

This file is a shallow embedding of the agent orchestration and
result-interpretation loop of the repository:
  * `Pages/graph/analysis_agent.py` (the Output Interpreter),
  * `Pages/graph/tools.py` (the Analysis Function Catalog),
  * `Pages/graph/nodes.py` (Router and Code Execution Step),
  * `Pages/backend.py` (Turn Controller).

Python is modelled as follows: pandas tables become association lists of
named columns of `Cell`s (numeric / text / missing, with `missing`
standing for NaN); Python dictionaries become association lists; machine
floats become `Rat` (none of the verified properties depend on float
rounding); fallible Python code returns `Except String`, where the error
string stands for the raised exception's message; `try/except` becomes a
`match` on the `Except`.  External effects (the filesystem, the language
model, the sandboxed REPL, clock timestamps and random artifact names)
enter as explicit oracle parameters.
-/

namespace HMDA

/-! ## Cells and tables (the pandas fragment the catalog uses) -/

/-- One cell of a loaded tabular dataset: a number, a text entry, or a
missing value (pandas NaN). -/
inductive Cell
  | num (q : Rat)
  | text (s : String)
  | missing
deriving DecidableEq, Repr

/-- Pandas elementwise equality `==`: a missing value (NaN) compares
unequal to everything, including itself. -/
def pandasEq (a b : Cell) : Bool :=
  match a, b with
  | .missing, _ => false
  | _, .missing => false
  | a, b => a == b

/-- Python `str()` of a cell value; NaN prints as `nan`. The rendering of
numerals abstracts Python's float formatting. -/
def Cell.pyStr : Cell → String
  | .num q => if q.den = 1 then toString q.num else toString q
  | .text s => s
  | .missing => "nan"

/-- Is the cell a text (non-numeric, non-missing) entry? -/
def Cell.isText : Cell → Bool
  | .text _ => true
  | _ => false

/-- Is the cell a missing value? -/
def Cell.isMissing : Cell → Bool
  | .missing => true
  | _ => false

/-- An in-memory table: named columns of cells (the fragment of a pandas
`DataFrame` the catalog operations use).  Tables loaded from CSV are
rectangular; theorems that need rectangularity state it explicitly. -/
structure Table where
  cols : List (String × List Cell)
deriving DecidableEq, Repr

/-- Column access `df[c]`; `none` models the `KeyError`. -/
def Table.lookup (t : Table) (c : String) : Option (List Cell) :=
  t.cols.lookup c

/-- The column names, in order. -/
def Table.colNames (t : Table) : List String :=
  t.cols.map Prod.fst

/-- Number of rows (`len(df)`): the length of the first column; a table
with no columns has no rows. -/
def Table.nrows (t : Table) : Nat :=
  match t.cols with
  | [] => 0
  | (_, c) :: _ => c.length

/-- pandas `df.empty`: true when either axis has length zero. -/
def Table.isEmptyDf (t : Table) : Bool :=
  t.nrows == 0 || t.cols.isEmpty

/-- `df[name] = col`: replace the named column in place. -/
def Table.setCol (t : Table) (name : String) (col : List Cell) : Table :=
  ⟨t.cols.map (fun p => if p.1 = name then (p.1, col) else p)⟩

/-- A column has a numeric dtype (`int64`/`float64`) exactly when it is
non-empty and no cell is a text entry (pandas stores NaN in numeric
columns; a column with no values defaults to object dtype). -/
def numericDtype (col : List Cell) : Bool :=
  !col.isEmpty && col.all (fun c => !c.isText)

/-- The pandas dtype name of a column: integral columns with no missing
value are `int64`, other numeric columns `float64`, the rest `object`. -/
def dtypeName (col : List Cell) : String :=
  if numericDtype col then
    if col.all (fun c => match c with | .num q => q.den = 1 | _ => false) then "int64"
    else "float64"
  else "object"

/-- `df.select_dtypes(include=['int64','float64']).columns.tolist()`. -/
def Table.numericColNames (t : Table) : List String :=
  t.cols.filterMap (fun p => if numericDtype p.2 then some p.1 else none)

/-- The numeric entries of a column, in order (missing and text entries
are skipped, as pandas numeric reductions skip NaN). -/
def numsOf (col : List Cell) : List Rat :=
  col.filterMap (fun c => match c with | .num q => some q | _ => none)

/-- Minimum of a list of rationals, `none` when empty. -/
def ratMin : List Rat → Option Rat
  | [] => none
  | h :: t => some (t.foldl min h)

/-- Maximum of a list of rationals, `none` when empty. -/
def ratMax : List Rat → Option Rat
  | [] => none
  | h :: t => some (t.foldl max h)

/-- Mean of a list of rationals, `none` when empty (pandas NaN). -/
def ratMean (xs : List Rat) : Option Rat :=
  match xs with
  | [] => none
  | _ => some (xs.sum / (xs.length : Rat))

/-- Describe-style summary of one numeric column, the shape
`df.describe()` reports per column: the non-missing count and the basic
aggregates.  (pandas additionally reports std and quartiles; they are
further functions of the same filtered values, so every equality proved
below about `Describe` extends to them unchanged.) -/
structure Describe where
  count : Nat
  mean : Option Rat
  min : Option Rat
  max : Option Rat
deriving DecidableEq, Repr

/-- `describe()` of a single column. -/
def describeCol (col : List Cell) : Describe :=
  let ns := numsOf col
  { count := ns.length, mean := ratMean ns, min := ratMin ns, max := ratMax ns }

/-! ## String helpers (Python `in`, slicing, splitting, stripping)

These re-implement the handful of textual primitives the code relies on
directly over character lists, so that theorems about concrete inputs
evaluate inside the kernel. -/

/-- Split a leading run of digits from the rest. -/
def takeDigits : List Char → List Char × List Char
  | [] => ([], [])
  | c :: rest =>
    if c.isDigit then
      let p := takeDigits rest
      (c :: p.1, p.2)
    else ([], c :: rest)

/-- Numeric value of a digit run. -/
def digitsToNat (ds : List Char) : Nat :=
  ds.foldl (fun a c => a * 10 + (c.toNat - 48)) 0

/-- Is `pat` a prefix of `s` (on characters)? -/
def charsPrefix : List Char → List Char → Bool
  | [], _ => true
  | _ :: _, [] => false
  | a :: as, b :: bs => a == b && charsPrefix as bs

/-- Does `pat` occur inside `s` (on characters)? -/
def charsInfix (pat : List Char) : List Char → Bool
  | [] => charsPrefix pat []
  | c :: rest => charsPrefix pat (c :: rest) || charsInfix pat rest

/-- Python's substring test `pat in s`. -/
def strContains (s pat : String) : Bool :=
  charsInfix pat.data s.data

/-- Python `s.startswith(pat)`. -/
def strStartsWith (s pat : String) : Bool :=
  charsPrefix pat.data s.data

/-- Python `s.endswith(pat)`. -/
def strEndsWith (s pat : String) : Bool :=
  charsPrefix pat.data.reverse s.data.reverse

/-- Python slice `s[a:b]` for `0 ≤ a ≤ b` (with the usual clamping). -/
def strSlice (s : String) (a b : Nat) : String :=
  String.mk ((s.data.drop a).take (b - a))

/-- Whitespace as Python `str.strip` removes it. -/
def isWsp (c : Char) : Bool :=
  c == ' ' || c == '\t' || c == '\n' || c == '\r'

/-- Python `s.strip()`. -/
def strTrim (s : String) : String :=
  String.mk (((s.data.dropWhile isWsp).reverse.dropWhile isWsp).reverse)

/-- `s.split(sep)` on character lists; cuts at every occurrence of the
(non-empty) separator, scanning left to right. -/
def splitOnAuxC (sep : List Char) : Nat → List Char → List Char → List (List Char)
  | 0, s, acc => [acc.reverse ++ s]
  | fuel + 1, s, acc =>
    match s with
    | [] => [acc.reverse]
    | c :: rest =>
      if charsPrefix sep (c :: rest) then
        acc.reverse :: splitOnAuxC sep fuel ((c :: rest).drop sep.length) []
      else splitOnAuxC sep fuel rest (c :: acc)

/-- Python `s.split(pat)` for a non-empty pattern (the only way the code
calls it). -/
def strSplitOn (s pat : String) : List String :=
  if pat.data.isEmpty then [s]
  else (splitOnAuxC pat.data (s.data.length + 1) s.data []).map String.mk

/-- Python `int(s)` on an already-stripped string of digits with an
optional sign; `none` models the `ValueError`. -/
def strToIntOpt (s : String) : Option Int :=
  match s.data with
  | '-' :: rest =>
    if !rest.isEmpty && rest.all Char.isDigit then some (-(digitsToNat rest : Int)) else none
  | cs =>
    if !cs.isEmpty && cs.all Char.isDigit then some ((digitsToNat cs : Int)) else none

/-! ## Runtime values (the Python values the Output Interpreter sees) -/

/-- One plotly trace: its primitive type and its (optionally populated)
`x`/`y` data attributes. -/
structure Trace where
  ttype : String
  xdata : Option (List Cell)
  ydata : Option (List Cell)
deriving Repr

/-- A plotly figure handle: its traces and its layout title
(`fig.layout.title.text`, `none` when no title was set). -/
structure Figure where
  traces : List Trace
  title : Option String
deriving Repr

/-- A Python runtime value as it may reach the Output Interpreter: a
string, a DataFrame, a Series, a dict (string-keyed, as all dicts built
by this program are), a list, a figure handle, a number, a boolean, or
`None`.  Python tuples behave as lists for every operation the code
performs on them. -/
inductive PyVal
  | strv (s : String)
  | dataframe (t : Table)
  | series (cells : List Cell)
  | dict (entries : List (String × PyVal))
  | listv (xs : List PyVal)
  | figv (f : Figure)
  | numv (q : Rat)
  | boolv (b : Bool)
  | nonev

/-- Python `type(x).__name__` (numbers with denominator 1 model ints). -/
def PyVal.typeName : PyVal → String
  | .strv _ => "str"
  | .dataframe _ => "DataFrame"
  | .series _ => "Series"
  | .dict _ => "dict"
  | .listv _ => "list"
  | .figv _ => "Figure"
  | .numv q => if q.den = 1 then "int" else "float"
  | .boolv _ => "bool"
  | .nonev => "NoneType"

mutual
/-- Python `str()` of a value.  The renderings of DataFrames, Series and
figures abstract their (large, layout-dependent) printed forms, which no
verified property inspects. -/
def PyVal.pyStr : PyVal → String
  | .strv s => s
  | .dataframe _ => "<DataFrame>"
  | .series _ => "<Series>"
  | .dict es => "\x7b" ++ String.intercalate ", " (pyStrEntries es) ++ "\x7d"
  | .listv xs => "[" ++ String.intercalate ", " (pyStrItems xs) ++ "]"
  | .figv _ => "<Figure>"
  | .numv q => if q.den = 1 then toString q.num else toString q
  | .boolv b => if b then "True" else "False"
  | .nonev => "None"

/-- Rendered `'key': value` entries of a dict. -/
def pyStrEntries : List (String × PyVal) → List String
  | [] => []
  | (k, v) :: rest => ("'" ++ k ++ "': " ++ v.pyStr) :: pyStrEntries rest

/-- Rendered items of a list. -/
def pyStrItems : List PyVal → List String
  | [] => []
  | v :: rest => v.pyStr :: pyStrItems rest
end

/-! ## Literal parsing (Python `eval` / `json.loads` on the literal forms
this system produces) -/

/-- Drop leading spaces. -/
def dropSpaces : List Char → List Char
  | ' ' :: r => dropSpaces r
  | l => l

/-- Read characters up to the closing quote `q`. -/
def takeStr (q : Char) : List Char → Option (String × List Char)
  | [] => none
  | c :: rest =>
    if c = q then some ("", rest)
    else (takeStr q rest).map (fun p => (String.mk (c :: p.1.data), p.2))

mutual
/-- Parse one Python literal (string, integer, boolean, `None`, or list),
fuel-bounded.  This models Python `eval` on the literal forms the system
actually evaluates (column-name lists and the like); forms outside this
grammar fail to parse, which the classifier treats the same way it
treats an `eval` error. -/
def parsePyVal (fuel : Nat) (cs : List Char) : Option (PyVal × List Char) :=
  match fuel with
  | 0 => none
  | fuel + 1 =>
    match dropSpaces cs with
    | '[' :: rest =>
      match dropSpaces rest with
      | ']' :: rest2 => some (.listv [], rest2)
      | rest2 =>
        match parsePyVal fuel rest2 with
        | none => none
        | some (x, r) =>
          match parsePyMore fuel r with
          | none => none
          | some (xs, r2) => some (.listv (x :: xs), r2)
    | '\'' :: rest => (takeStr '\'' rest).map (fun p => (.strv p.1, p.2))
    | '"' :: rest => (takeStr '"' rest).map (fun p => (.strv p.1, p.2))
    | 'T' :: 'r' :: 'u' :: 'e' :: rest => some (.boolv true, rest)
    | 'F' :: 'a' :: 'l' :: 's' :: 'e' :: rest => some (.boolv false, rest)
    | 'N' :: 'o' :: 'n' :: 'e' :: rest => some (.nonev, rest)
    | '-' :: rest =>
      match takeDigits rest with
      | ([], _) => none
      | (ds, r) => some (.numv (-(digitsToNat ds : Rat)), r)
    | other =>
      match takeDigits other with
      | ([], _) => none
      | (ds, r) => some (.numv (digitsToNat ds : Rat), r)

/-- Parse the remaining `, item`* of a list, up to `]`. -/
def parsePyMore (fuel : Nat) (cs : List Char) : Option (List PyVal × List Char) :=
  match fuel with
  | 0 => none
  | fuel + 1 =>
    match dropSpaces cs with
    | ']' :: rest => some ([], rest)
    | ',' :: rest =>
      match parsePyVal fuel rest with
      | none => none
      | some (x, r) =>
        match parsePyMore fuel r with
        | none => none
        | some (xs, r2) => some (x :: xs, r2)
    | _ => none
end

/-- Python `eval` of a complete literal (trailing spaces allowed). -/
def evalPyLit (s : String) : Option PyVal :=
  match parsePyVal (s.length + 1) s.data with
  | some (v, rest) => if dropSpaces rest = [] then some v else none
  | none => none

mutual
/-- `json.loads` success on one JSON value (double-quoted strings,
integers, booleans, null, arrays, objects), fuel-bounded; only the
success/failure outcome is consulted by the classifier. -/
def jsonVal (fuel : Nat) (cs : List Char) : Option (List Char) :=
  match fuel with
  | 0 => none
  | fuel + 1 =>
    match dropSpaces cs with
    | '"' :: rest => (takeStr '"' rest).map Prod.snd
    | '[' :: rest =>
      match dropSpaces rest with
      | ']' :: rest2 => some rest2
      | rest2 =>
        match jsonVal fuel rest2 with
        | none => none
        | some r => jsonItems fuel r
    | '\x7b' :: rest =>
      match dropSpaces rest with
      | '\x7d' :: rest2 => some rest2
      | rest2 =>
        match jsonMember fuel rest2 with
        | none => none
        | some r => jsonMembers fuel r
    | 't' :: 'r' :: 'u' :: 'e' :: rest => some rest
    | 'f' :: 'a' :: 'l' :: 's' :: 'e' :: rest => some rest
    | 'n' :: 'u' :: 'l' :: 'l' :: rest => some rest
    | '-' :: rest =>
      match takeDigits rest with
      | ([], _) => none
      | (_, r) => some r
    | other =>
      match takeDigits other with
      | ([], _) => none
      | (_, r) => some r

/-- Remaining `, value`* of a JSON array, up to `]`. -/
def jsonItems (fuel : Nat) (cs : List Char) : Option (List Char) :=
  match fuel with
  | 0 => none
  | fuel + 1 =>
    match dropSpaces cs with
    | ']' :: rest => some rest
    | ',' :: rest =>
      match jsonVal fuel rest with
      | none => none
      | some r => jsonItems fuel r
    | _ => none

/-- One `"key": value` member of a JSON object. -/
def jsonMember (fuel : Nat) (cs : List Char) : Option (List Char) :=
  match fuel with
  | 0 => none
  | fuel + 1 =>
    match dropSpaces cs with
    | '"' :: rest =>
      match takeStr '"' rest with
      | none => none
      | some (_, r) =>
        match dropSpaces r with
        | ':' :: r2 => jsonVal fuel r2
        | _ => none
    | _ => none

/-- Remaining `, member`* of a JSON object, up to the closing brace. -/
def jsonMembers (fuel : Nat) (cs : List Char) : Option (List Char) :=
  match fuel with
  | 0 => none
  | fuel + 1 =>
    match dropSpaces cs with
    | '\x7d' :: rest => some rest
    | ',' :: rest =>
      match jsonMember fuel rest with
      | none => none
      | some r => jsonMembers fuel r
    | _ => none
end

/-- Does `json.loads s` succeed on a complete value? -/
def jsonLoadsOk (s : String) : Bool :=
  match jsonVal (s.length + 1) s.data with
  | some rest => dropSpaces rest = []
  | none => false

/-! ## Numeric summaries and formatting used by the interpreter -/

/-- Insert a value into a sorted list of rationals. -/
def insertLeRat (x : Rat) : List Rat → List Rat
  | [] => [x]
  | y :: ys => if x ≤ y then x :: y :: ys else y :: insertLeRat x ys

/-- Sort a list of rationals ascending. -/
def sortRats (xs : List Rat) : List Rat :=
  xs.foldr insertLeRat []

/-- pandas `Series.quantile` with the default linear interpolation,
`none` on an empty list of values. -/
def ratQuantile (xs : List Rat) (q : Rat) : Option Rat :=
  let sorted := sortRats xs
  if sorted.isEmpty then none
  else
    let n := sorted.length
    let pos : Rat := q * ((n : Rat) - 1)
    let i : Nat := pos.floor.toNat
    let frac : Rat := pos - (i : Rat)
    let xi := sorted.getD i 0
    let xi1 := sorted.getD (i + 1) xi
    some (xi + frac * (xi1 - xi))

/-- Sized insertion into a list under a boolean comparison. -/
def insertBy {α : Type} (le : α → α → Bool) (x : α) : List α → List α
  | [] => [x]
  | y :: ys => if le x y then x :: y :: ys else y :: insertBy le x ys

/-- Insertion sort under a boolean comparison (Python `sorted`). -/
def sortListBy {α : Type} (le : α → α → Bool) (xs : List α) : List α :=
  xs.foldr (insertBy le) []

/-- Group the digit string into blocks of three from the right with
commas, as Python's `,` format flag does. -/
def chunk3 : List Char → List (List Char)
  | [] => []
  | [a] => [[a]]
  | [a, b] => [[a, b]]
  | a :: b :: c :: rest => [a, b, c] :: chunk3 rest

/-- Two-digit zero-padded rendering of `n < 100`. -/
def pad2 (n : Nat) : String :=
  if n < 10 then "0" ++ toString n else toString n

/-- Python's `f"{v:,.2f}"` formatting: thousands separators and two
decimal places. -/
def fmtComma2 (q : Rat) : String :=
  let n : Int := round (q * 100)
  let sign := if n < 0 then "-" else ""
  let m := n.natAbs
  let intDigits := (toString (m / 100)).data.reverse
  sign ++ String.mk (List.intercalate [','] ((chunk3 intDigits).map List.reverse).reverse)
    ++ "." ++ pad2 (m % 100)

/-- Formatting of a possibly-missing aggregate (pandas NaN prints as
`nan`). -/
def fmtOptComma2 : Option Rat → String
  | some q => fmtComma2 q
  | none => "nan"

/-- Formatting of a cell under `:,.2f`; the (unreachable from the
catalog) non-numeric case is abstracted as the bare text. -/
def fmtCellComma2 : Cell → String
  | .num q => fmtComma2 q
  | .text s => s
  | .missing => "nan"

/-- A possibly-missing aggregate as a Python value (NaN abstracted as the
missing marker). -/
def optRatPy : Option Rat → PyVal
  | some q => .numv q
  | none => .nonev

/-- A cell as the Python value obtained when iterating a Series. -/
def cellToPy : Cell → PyVal
  | .num q => .numv q
  | .text s => .strv s
  | .missing => .nonev

/-- The describe summary as the nested mapping `describe().to_dict()`
produces per column. -/
def Describe.toPy (d : Describe) : PyVal :=
  .dict [("count", .numv (d.count : Rat)), ("mean", optRatPy d.mean),
         ("min", optRatPy d.min), ("max", optRatPy d.max)]

/-! ## The Output Interpreter (`AnalysisAgent`, analysis_agent.py)

`analyze` classifies a runtime value and derives metrics and insights.
Each per-type summarizer below returns `Except String AnalysisResults`,
the error standing for an exception raised inside it; `analyze` catches
at the top.  `_analyze_visualization` has its own internal `try/except`
and therefore returns plain results, recording an internal failure in
the `error` field without unsetting `success`. -/

/-- The structured result `analyze` returns (§ Analysis Result of the
spec): success flag, classified type tag, named metrics, insight lines
and an optional error message. -/
structure AnalysisResults where
  success : Bool
  data_type : String
  metrics : List (String × PyVal)
  insights : List String
  error : Option String

namespace AnalysisAgent

/-- `_determine_data_type`: the first-match-wins classification cascade
applied when no type hint is given. -/
def determine_data_type (data : PyVal) : String :=
  match data with
  | PyVal.strv s =>
    if strEndsWith s ".pickle" || strContains s "Visualization created successfully" then
      "visualization"
    else if strStartsWith s "ValueError" then "error"
    else if strStartsWith s "[" && strEndsWith s "]" && (evalPyLit s).isSome then "list"
    else if strStartsWith s "\x7b" && strEndsWith s "\x7d" && jsonLoadsOk s then "dict"
    else "generic"
  | .dataframe _ => "dataframe"
  | .series _ => "series"
  | PyVal.dict _ => "dict"
  | PyVal.listv _ => "list"
  | _ => "generic"

/-- Strip the serialized-`ValueError` wrapper: `error_msg[11:-2]` when the
message starts with `ValueError("`. -/
def stripValueErrorWrapper (msg : String) : String :=
  if strStartsWith msg "ValueError(\"" then strSlice msg 11 (msg.length - 2) else msg

/-- The enumerated-options extraction of `_analyze_error`: the text
between `Expected one of ` and ` but received`, evaluated as a Python
literal.  `none` models the indexing or `eval` failure the inner
`except` swallows. -/
def extractExpectedOptions (msg : String) : Option PyVal :=
  match strSplitOn msg "Expected one of " with
  | _ :: part :: _ => evalPyLit ((strSplitOn part " but received").headD part)
  | _ => none

/-- Python `len(v)` for the value kinds that support it. -/
def pyLen : PyVal → Option Nat
  | PyVal.strv s => some s.length
  | PyVal.listv xs => some xs.length
  | PyVal.dict es => some es.length
  | .series cs => some cs.length
  | .dataframe t => some t.nrows
  | _ => none

/-- `_analyze_error`: recover the bare message, record its length, and —
when an "Expected one of … but received …" pattern is present — surface
the enumerated options as a metric plus guiding insights. -/
def analyze_error (data : PyVal) (results : AnalysisResults) : Except String AnalysisResults :=
  match data with
  | PyVal.strv msg0 =>
    let msg := stripValueErrorWrapper msg0
    let r1 := { results with metrics := results.metrics ++
      [("error_type", PyVal.strv (if strStartsWith msg "Value" then "ValueError" else "Unknown")),
       ("message_length", PyVal.numv (msg.length : Rat))] }
    if strContains msg "Expected one of" then
      match extractExpectedOptions msg with
      | some v =>
        let r2 := { r1 with metrics := r1.metrics ++ [("available_columns", v)] }
        match pyLen v with
        | some n =>
          .ok { r2 with insights := r2.insights ++
            ["Error: Invalid column name specified",
             "Available columns: " ++ toString n,
             "Use one of the available columns listed in the metrics"] }
        | none => .ok { r2 with insights := r2.insights ++ ["Error: " ++ msg] }
      | none => .ok { r1 with insights := r1.insights ++ ["Error: " ++ msg] }
    else .ok { r1 with insights := r1.insights ++ ["Error: " ++ msg] }
  | other =>
    .error ("AttributeError: " ++ other.typeName ++ " object has no attribute startswith")

/-- Top-5 categories of a bar chart: `zip(x, y)` sorted by value
descending, first five. -/
def topCategories (xs ys : List Cell) : List (Cell × Cell) :=
  (sortListBy (fun a b => (match b.2 with | .num q => q | _ => 0) ≤ (match a.2 with | .num q => q | _ => 0)) (xs.zip ys)).take 5

/-- `_analyze_visualization`: read plot type and title; box charts get a
quartile summary, bar charts a mean/extrema/top-categories summary,
other charts only type and title; the artifact's viewing location is
appended when a filename is attached.  Its own `try/except` converts any
internal failure into `results.error` without touching `success`. -/
def analyze_visualization (data : PyVal) (results : AnalysisResults) : AnalysisResults :=
  match data with
  | PyVal.dict es =>
    match es.lookup "figure" with
    | none =>
      { results with insights := results.insights ++
        ["Visualization created successfully",
         "The plot is available in HTML format",
         "You can view the interactive plot at: images/plotly_figures/" ++
           ((es.lookup "filename").elim "" PyVal.pyStr)] }
    | some figval =>
      match figval with
      | PyVal.figv fig =>
        let plot_type := match fig.traces with | [] => "unknown" | tr :: _ => tr.ttype
        let title : PyVal := match fig.title with | some s => PyVal.strv s | none => PyVal.nonev
        let r1 := { results with metrics := results.metrics ++
          [("plot_type", PyVal.strv plot_type), ("title", title)] }
        let r2 :=
          if plot_type = "box" then
            match fig.traces with
            | [] => r1
            | tr :: _ =>
              match tr.ydata with
              | none => r1
              | some ycells =>
                let ys := numsOf ycells
                let med := ratQuantile ys (1 / 2)
                let q1 := ratQuantile ys (1 / 4)
                let q3 := ratQuantile ys (3 / 4)
                let mn := ratMin ys
                let mx := ratMax ys
                let r := { r1 with metrics := r1.metrics ++
                  [("median", optRatPy med), ("q1", optRatPy q1), ("q3", optRatPy q3),
                   ("min", optRatPy mn), ("max", optRatPy mx)] }
                { r with insights := r.insights ++
                  ["Plot Type: Box Plot - " ++ title.pyStr,
                   "Distribution Analysis:",
                   "- Median: " ++ fmtOptComma2 med,
                   "- Q1 (25th percentile): " ++ fmtOptComma2 q1,
                   "- Q3 (75th percentile): " ++ fmtOptComma2 q3,
                   "- Range: " ++ fmtOptComma2 mn ++ " to " ++ fmtOptComma2 mx] }
          else if plot_type = "bar" then
            match fig.traces with
            | [] => r1
            | tr :: _ =>
              match tr.ydata with
              | none => r1
              | some ycells =>
                let xcells := tr.xdata.getD []
                let ys := numsOf ycells
                let mean := ratMean ys
                let mx := ratMax ys
                let mn := ratMin ys
                let top := topCategories xcells ycells
                let r := { r1 with metrics := r1.metrics ++
                  [("mean", optRatPy mean), ("max_value", optRatPy mx), ("min_value", optRatPy mn),
                   ("top_categories", PyVal.dict (top.map (fun (p : Cell × Cell) => (p.1.pyStr, cellToPy p.2))))] }
                { r with insights := (r.insights ++
                  ["Plot Type: Bar Chart - " ++ title.pyStr,
                   "Analysis:",
                   "- Average Value: " ++ fmtOptComma2 mean,
                   "- Highest Value: " ++ fmtOptComma2 mx,
                   "- Lowest Value: " ++ fmtOptComma2 mn,
                   "Top 5 Categories:"]) ++
                  top.map (fun (p : Cell × Cell) => "  â€¢ " ++ p.1.pyStr ++ ": " ++ fmtCellComma2 p.2) }
          else
            { r1 with insights := r1.insights ++
              ["Plot Type: " ++ plot_type,
               "Title: " ++ title.pyStr,
               "The visualization has been created successfully and can be viewed in the browser"] }
        match es.lookup "filename" with
        | some fn => { r2 with insights := r2.insights ++
            ["\nView the interactive plot at: images/plotly_figures/" ++ fn.pyStr] }
        | none => r2
      | other =>
        { results with error := some ("AttributeError: " ++ other.typeName ++ " object has no attribute data") }
  | other =>
    { results with error := some ("AttributeError: " ++ other.typeName ++ " object has no attribute get") }

/-- `_analyze_dataframe`: shape, columns, dtypes, per-column missing
counts, numeric summary, and headline insights. -/
def analyze_dataframe (data : PyVal) (results : AnalysisResults) : Except String AnalysisResults :=
  match data with
  | .dataframe t =>
    let ncols := t.cols.length
    let numCols := t.numericColNames
    let totalMissing := (t.cols.map (fun p => p.2.countP Cell.isMissing)).sum
    let m1 := [("shape", PyVal.listv [PyVal.numv (t.nrows : Rat), PyVal.numv (ncols : Rat)]),
               ("columns", PyVal.listv (t.colNames.map PyVal.strv)),
               ("dtypes", PyVal.dict (t.cols.map (fun p => (p.1, PyVal.strv (dtypeName p.2))))),
               ("missing", PyVal.dict (t.cols.map (fun p => (p.1, PyVal.numv ((p.2.countP Cell.isMissing : Nat) : Rat)))))]
    let m2 := if numCols.length > 0 then
        m1 ++ [("numeric_summary", PyVal.dict (numCols.map (fun c => (c, (describeCol ((t.lookup c).getD [])).toPy))))]
      else m1
    .ok { results with
          metrics := results.metrics ++ m2,
          insights := results.insights ++
            ["DataFrame with " ++ toString t.nrows ++ " rows and " ++ toString ncols ++ " columns",
             "Numeric columns: " ++ toString numCols.length,
             "Missing values: " ++ toString totalMissing] }
  | other =>
    .error ("AttributeError: " ++ other.typeName ++ " object has no attribute shape")

/-- `_analyze_series`: length, dtype, missing count, and numeric
aggregates for numeric series.  (The standard-deviation entry requires a
square root, which has no exact rational representative; it is omitted
from the embedding and no verified property inspects it.) -/
def analyze_series (data : PyVal) (results : AnalysisResults) : Except String AnalysisResults :=
  match data with
  | .series cells =>
    let dt := dtypeName cells
    let missing := cells.countP Cell.isMissing
    let ns := numsOf cells
    let m1 := [("length", PyVal.numv (cells.length : Rat)), ("dtype", PyVal.strv dt),
               ("missing", PyVal.numv (missing : Rat))]
    let m2 := if numericDtype cells then
        m1 ++ [("mean", optRatPy (ratMean ns)), ("median", optRatPy (ratQuantile ns (1 / 2))),
               ("min", optRatPy (ratMin ns)), ("max", optRatPy (ratMax ns))]
      else m1
    .ok { results with
          metrics := results.metrics ++ m2,
          insights := results.insights ++
            ["Series of type " ++ dt ++ " with " ++ toString cells.length ++ " elements",
             "Missing values: " ++ toString missing] }
  | other =>
    .error ("AttributeError: " ++ other.typeName ++ " object has no attribute dtype")

/-- Python `set()` rendering used in the dictionary insight. -/
def pySetRepr (names : List String) : String :=
  match names.dedup with
  | [] => "set()"
  | ds => "\x7b" ++ String.intercalate ", " (ds.map (fun s => "'" ++ s ++ "'")) ++ "\x7d"

/-- `_analyze_dict`: key list, size, per-key value-type names. -/
def analyze_dict (data : PyVal) (results : AnalysisResults) : Except String AnalysisResults :=
  match data with
  | PyVal.dict es =>
    .ok { results with
          metrics := results.metrics ++
            [("keys", PyVal.listv (es.map (fun p => PyVal.strv p.1))),
             ("length", PyVal.numv (es.length : Rat)),
             ("value_types", PyVal.dict (es.map (fun p => (p.1, PyVal.strv p.2.typeName))))],
          insights := results.insights ++
            ["Dictionary with " ++ toString es.length ++ " keys",
             "Key types: " ++ pySetRepr (es.map (fun _ => "str"))] }
  | other =>
    .error ("AttributeError: " ++ other.typeName ++ " object has no attribute keys")

/-- Python iteration over a value (a dict yields its keys, a string its
one-character substrings, a Series its values); `none` when the value is
not iterable / has no `len()`. -/
def listElems : PyVal → Option (List PyVal)
  | .listv xs => some xs
  | .dict es => some (es.map (fun p => PyVal.strv p.1))
  | .strv s => some (s.data.map (fun c => PyVal.strv (String.mk [c])))
  | .series cs => some (cs.map cellToPy)
  | _ => none

/-- `isinstance(x, (str, int, float))` (a Python bool is an int). -/
def isStrIntFloat : PyVal → Bool
  | .strv _ => true
  | .numv _ => true
  | .boolv _ => true
  | _ => false

/-- `isinstance(x, (int, float))` (a Python bool is an int). -/
def isIntFloat : PyVal → Bool
  | .numv _ => true
  | .boolv _ => true
  | _ => false

/-- The numeric value of an int/float/bool. -/
def pyNumVal : PyVal → Rat
  | .numv q => q
  | .boolv b => if b then 1 else 0
  | _ => 0

/-- Identity key for Python `set()` membership over scalars: numbers and
booleans compare by numeric value, strings by text. -/
def pyHashKey : PyVal → String
  | .strv s => "s:" ++ s
  | v => "n:" ++ toString (pyNumVal v)

/-- `_analyze_generic`: type name, stringified length and line count.
(The `dir_attributes` metric counts the Python object's attribute list,
which has no counterpart in the embedding; it is recorded as 0 and no
verified property inspects it.) -/
def analyze_generic (data : PyVal) (results : AnalysisResults) : AnalysisResults :=
  let sd := data.pyStr
  let lines := (strSplitOn sd "\n").length
  { results with
    metrics := results.metrics ++
      [("type", PyVal.strv data.typeName),
       ("string_length", PyVal.numv (sd.length : Rat)),
       ("dir_attributes", PyVal.numv 0),
       ("lines", PyVal.numv (lines : Rat))],
    insights := results.insights ++
      ["Generic data of type " ++ data.typeName,
       "Content length: " ++ toString sd.length ++ " characters",
       "Number of lines: " ++ toString lines] }

/-- The body of `_analyze_list` applied to the (possibly `eval`-ed)
value: length and element-type metrics, numeric range or distinct-value
count for homogeneous scalar content.  `min`/`max`/`sum` over an empty
list raise, which propagates to `analyze`'s top-level handler. -/
def analyze_list_core (v : PyVal) (results : AnalysisResults) : Except String AnalysisResults :=
  match listElems v with
  | none => .error ("TypeError: object of type " ++ v.typeName ++ " has no len()")
  | some elems =>
    let etypes := (elems.map PyVal.typeName).dedup
    let r1 := { results with
      metrics := results.metrics ++
        [("length", PyVal.numv (elems.length : Rat)),
         ("element_types", PyVal.listv (etypes.map PyVal.strv))],
      insights := results.insights ++
        ["List with " ++ toString elems.length ++ " elements",
         "Element types: " ++ String.intercalate ", " etypes] }
    if elems.all isStrIntFloat then
      if elems.all isIntFloat then
        match elems with
        | [] => .error "ValueError: min() arg is an empty sequence"
        | _ :: _ =>
          let vals := elems.map pyNumVal
          let mn := (vals.tail.foldl min (vals.headD 0))
          let mx := (vals.tail.foldl max (vals.headD 0))
          let mean := vals.sum / (vals.length : Rat)
          let r2 := { r1 with metrics := r1.metrics ++
            [("min", PyVal.numv mn), ("max", PyVal.numv mx), ("mean", PyVal.numv mean)] }
          .ok { r2 with insights := r2.insights ++
            ["Numeric range: " ++ (PyVal.numv mn).pyStr ++ " to " ++ (PyVal.numv mx).pyStr] }
      else
        let uniq := (elems.map pyHashKey).dedup.length
        let r2 := { r1 with metrics := r1.metrics ++ [("unique_values", PyVal.numv (uniq : Rat))] }
        .ok { r2 with insights := r2.insights ++ ["Unique values: " ++ toString uniq] }
    else .ok r1

/-- `_analyze_list`: a string argument is `eval`-ed first, falling back
to the generic analysis when it does not parse. -/
def analyze_list (data : PyVal) (results : AnalysisResults) : Except String AnalysisResults :=
  match data with
  | .strv s =>
    match evalPyLit s with
    | some v => analyze_list_core v results
    | none => .ok (analyze_generic data results)
  | v => analyze_list_core v results

/-- The dispatch body of `analyze`: determine the type (unless hinted)
and run the per-type summarizer, any of which may raise. -/
def analyzeSteps (data : PyVal) (data_type : Option String) : Except String AnalysisResults :=
  let dt := data_type.getD (determine_data_type data)
  let results : AnalysisResults :=
    { success := true, data_type := dt, metrics := [], insights := [], error := none }
  if dt = "visualization" then .ok (analyze_visualization data results)
  else if dt = "error" then analyze_error data results
  else if dt = "dataframe" then analyze_dataframe data results
  else if dt = "series" then analyze_series data results
  else if dt = "dict" then analyze_dict data results
  else if dt = "list" then analyze_list data results
  else .ok (analyze_generic data results)

/-- `AnalysisAgent.analyze`: classify and summarize any value; the
top-level `except` converts an internal failure into
`{success: false, data_type: "unknown", error: message}`. -/
def analyze (data : PyVal) (data_type : Option String) : AnalysisResults :=
  match analyzeSteps data data_type with
  | .ok r => r
  | .error msg =>
    { success := false, data_type := "unknown", metrics := [], insights := [], error := some msg }

end AnalysisAgent

/-! ## The Analysis Function Catalog (`DataAnalysisTools`, tools.py)

The catalog is bound to one table loaded from the first input
descriptor, always under the fixed logical name `hmda`.  The filesystem
enters as an oracle mapping a path to the table `pd.read_csv` would
load (`none` when the path does not exist).  Chart builders mutate the
bound table in place (`df[col] = pd.to_numeric(df[col], errors='coerce')`),
so each returns the updated catalog next to its `Except`-wrapped result;
the random artifact filename that `_save_figure` would generate enters
as an oracle argument. -/

/-- A dataset descriptor (`data_models.py`); `variable_name` and
`data_path` are validated non-empty at construction. -/
structure InputData where
  variable_name : String
  data_path : String
  data_description : Option String
deriving Repr

/-- The filesystem oracle: which paths exist, and the table loaded from
each existing path. -/
def FileSystem : Type := List (String × Table)

/-- Path lookup. -/
def FileSystem.read (fs : FileSystem) (path : String) : Option Table :=
  List.lookup path fs

/-- The catalog state: the `dataframes` mapping, keyed by the fixed
logical dataset name. -/
structure DataAnalysisTools where
  dataframes : List (String × Table)
deriving Repr

/-- Replace (or insert) a binding in an association list, as Python dict
assignment does. -/
def assocSet {β : Type} (m : List (String × β)) (k : String) (v : β) : List (String × β) :=
  if (List.lookup k m).isSome then m.map (fun p => if p.1 = k then (k, v) else p)
  else m ++ [(k, v)]

namespace DataAnalysisTools

/-- `DataAnalysisTools.__init__`: fail on an empty descriptor list, a
falsy or non-existent path, or an empty loaded table; otherwise bind the
loaded table under the fixed name `hmda`.  Only the first descriptor is
used. -/
def init (fs : FileSystem) (input_data : List InputData) : Except String DataAnalysisTools :=
  match input_data with
  | [] => .error "No input data provided. Please upload a dataset first."
  | data :: _ =>
    if data.data_path = "" then .error ("Invalid data path: " ++ data.data_path)
    else
      match fs.read data.data_path with
      | none => .error ("Invalid data path: " ++ data.data_path)
      | some df =>
        if df.isEmptyDf then
          .error ("Error loading " ++ data.data_path ++ ": Dataset is empty")
        else .ok ⟨[("hmda", df)]⟩

/-- `get_columns`: the bound table's column list, failing on an unknown
dataset name. -/
def get_columns (tools : DataAnalysisTools) (data_var : String) : Except String (List String) :=
  match List.lookup data_var tools.dataframes with
  | none => .error ("Dataset " ++ data_var ++ " not found")
  | some df => .ok df.colNames

end DataAnalysisTools

/-- `pd.to_numeric(·, errors='coerce')` on one cell: numbers pass
through, missing stays missing, text parses or becomes missing.  The
string-to-number parse models integer literals; which text forms parse
is irrelevant to every verified property. -/
def parseNumStr (s : String) : Option Rat :=
  (strToIntOpt (strTrim s)).map (fun i => (i : Rat))

/-- Coerce one cell to numeric, non-parsing text becoming missing. -/
def toNumericCell (c : Cell) : Cell :=
  match c with
  | .num q => .num q
  | .missing => .missing
  | .text s =>
    match parseNumStr s with
    | some q => .num q
    | none => .missing

/-- A chart-builder result: the figure handle and the generated artifact
filename, as `_save_figure` returns them. -/
structure PlotResult where
  figure : Figure
  filename : String
deriving Repr

/-- Build the plotly-express figure for a chart: both referenced columns
must exist (plotly's "Expected one of … but received …" `ValueError`
otherwise). -/
def pxFigure (ttype : String) (df : Table) (x_col : Option String) (y_col : Option String)
    (title : Option String) : Except String Figure :=
  let check : Option String → Except String (Option (List Cell)) := fun oc =>
    match oc with
    | none => .ok none
    | some c =>
      match df.lookup c with
      | some col => .ok (some col)
      | none =>
        .error ("ValueError(\"Value of this argument is not the name of a column in data_frame. Expected one of " ++
          (PyVal.listv (df.colNames.map PyVal.strv)).pyStr ++ " but received: " ++ c ++ "\")")
  match check x_col with
  | .error e => .error e
  | .ok xs =>
    match check y_col with
    | .error e => .error e
    | .ok ys => .ok ⟨[⟨ttype, xs, ys⟩], title⟩

namespace DataAnalysisTools

/-- The shared first phase of every chart builder: resolve the dataset,
then destructively coerce the value column of the bound table
(`df[col] = pd.to_numeric(df[col], errors='coerce')`); a missing value
column is a `KeyError`.  Returns the updated catalog next to the coerced
table so the builders below can build their figures from it. -/
def coerceValueColumn (tools : DataAnalysisTools) (data_var valueCol : String) :
    DataAnalysisTools × Except String Table :=
  match List.lookup data_var tools.dataframes with
  | none => (tools, .error ("Dataset " ++ data_var ++ " not found"))
  | some df =>
    match df.lookup valueCol with
    | none => (tools, .error ("KeyError: " ++ valueCol))
    | some col =>
      let df2 := df.setCol valueCol (col.map toNumericCell)
      ({ dataframes := assocSet tools.dataframes data_var df2 }, .ok df2)

/-- `create_scatter_plot`.  `fname` is the random artifact name
`_save_figure` would draw. -/
def create_scatter_plot (tools : DataAnalysisTools) (fname data_var x_col y_col : String)
    (title : Option String) : DataAnalysisTools × Except String PlotResult :=
  match tools.coerceValueColumn data_var y_col with
  | (t2, .error e) => (t2, .error e)
  | (t2, .ok df2) =>
    match pxFigure "scatter" df2 (some x_col) (some y_col) title with
    | .error e => (t2, .error e)
    | .ok fig => (t2, .ok ⟨fig, fname⟩)

/-- `create_line_plot` (a plotly-express line figure's trace primitive is
`scatter` in line mode). -/
def create_line_plot (tools : DataAnalysisTools) (fname data_var x_col y_col : String)
    (title : Option String) : DataAnalysisTools × Except String PlotResult :=
  match tools.coerceValueColumn data_var y_col with
  | (t2, .error e) => (t2, .error e)
  | (t2, .ok df2) =>
    match pxFigure "scatter" df2 (some x_col) (some y_col) title with
    | .error e => (t2, .error e)
    | .ok fig => (t2, .ok ⟨fig, fname⟩)

/-- The distinct cells of a column in order of first occurrence
(pandas `Series.unique`, which includes NaN). -/
def uniqueCells (col : List Cell) : List Cell :=
  col.foldl (fun acc c => if acc.contains c then acc else acc ++ [c]) []

/-- Rows of `col` selected by a boolean mask (the shape
`df[df[g] == v]` takes columnwise). -/
def maskFilter (mask : List Bool) (col : List Cell) : List Cell :=
  (col.zip mask).filterMap (fun p => if p.2 then some p.1 else none)

/-- `df.groupby(x)[y].mean()` restricted to what the bar builder plots:
per distinct x value (missing keys dropped, keys sorted as pandas
sorts groups — here by first occurrence after a stable sort on the
rendered key, an abstraction no verified property inspects), the mean of
the chosen column's numeric entries. -/
def groupMeans (df : Table) (x_col y_col : String) : List (Cell × Option Rat) :=
  let xs := (df.lookup x_col).getD []
  let ys := (df.lookup y_col).getD []
  let keys := (uniqueCells xs).filter (fun c => !c.isMissing)
  let sorted := sortListBy (fun a b => a.pyStr ≤ b.pyStr) keys
  sorted.map (fun k =>
    (k, ratMean (numsOf (maskFilter (xs.map (fun c => pandasEq c k)) ys))))

/-- `create_bar_plot`: group the (coerced) value column by the category
column (and optionally a second grouping column, which only affects the
figure, not the table) and plot the per-group means. -/
def create_bar_plot (tools : DataAnalysisTools) (fname data_var x_col y_col : String)
    (title : Option String) (group_by : Option String) :
    DataAnalysisTools × Except String PlotResult :=
  match tools.coerceValueColumn data_var y_col with
  | (t2, .error e) => (t2, .error e)
  | (t2, .ok df2) =>
    match df2.lookup x_col with
    | none => (t2, .error ("KeyError: " ++ x_col))
    | some _ =>
      match group_by with
      | some g =>
        match df2.lookup g with
        | none => (t2, .error ("KeyError: " ++ g))
        | some _ =>
          let gm := groupMeans df2 x_col y_col
          (t2, .ok ⟨⟨[⟨"bar", some (gm.map Prod.fst), some (gm.map (fun p => (optRatPy p.2 : PyVal) |> fun v => match v with | .numv q => Cell.num q | _ => Cell.missing))⟩], title⟩, fname⟩)
      | none =>
        let gm := groupMeans df2 x_col y_col
        (t2, .ok ⟨⟨[⟨"bar", some (gm.map Prod.fst), some (gm.map (fun p => match p.2 with | some q => Cell.num q | none => Cell.missing))⟩], title⟩, fname⟩)

/-- `create_histogram` (the `bins` argument shapes only the rendered
figure). -/
def create_histogram (tools : DataAnalysisTools) (fname data_var column : String)
    (bins : Nat) (title : Option String) : DataAnalysisTools × Except String PlotResult :=
  match tools.coerceValueColumn data_var column with
  | (t2, .error e) => (t2, .error e)
  | (t2, .ok df2) =>
    match pxFigure "histogram" df2 (some column) none title with
    | .error e => (t2, .error e)
    | .ok fig => (t2, .ok ⟨fig, fname⟩)

/-- `create_box_plot`: box of the coerced column, optionally split by a
grouping column on the x axis. -/
def create_box_plot (tools : DataAnalysisTools) (fname data_var column : String)
    (title : Option String) (group_by : Option String) :
    DataAnalysisTools × Except String PlotResult :=
  match tools.coerceValueColumn data_var column with
  | (t2, .error e) => (t2, .error e)
  | (t2, .ok df2) =>
    match pxFigure "box" df2 group_by (some column) title with
    | .error e => (t2, .error e)
    | .ok fig => (t2, .ok ⟨fig, fname⟩)

/-- The result shape of `calculate_summary_stats`: a describe mapping,
or one describe mapping per stringified group value. -/
inductive StatsOut
  | plain (stats : List (String × Describe))
  | byGroup (groups : List (String × List (String × Describe)))
deriving DecidableEq, Repr

/-- `df[columns].describe().to_dict()`: per-column describe summaries;
a missing column is a `KeyError` (the first missing name, scanned left
to right, raises). -/
def selectDescribe (df : Table) : List String → Except String (List (String × Describe))
  | [] => .ok []
  | c :: rest =>
    match df.lookup c with
    | none => .error ("KeyError: " ++ c)
    | some col =>
      match selectDescribe df rest with
      | .error e => .error e
      | .ok ds => .ok ((c, describeCol col) :: ds)

/-- The per-group loop of grouped `calculate_summary_stats`: for each
group value in turn, filter the table to the rows whose grouping cell
compares `==`-equal to it (NaN matches nothing) and describe the chosen
columns of the filtered table. -/
def groupedStats (df : Table) (cols : List String) (gcol : List Cell) :
    List Cell → Except String (List (String × List (String × Describe)))
  | [] => .ok []
  | v :: vs =>
    let mask := gcol.map (fun c => pandasEq c v)
    let sub : Table := ⟨df.cols.map (fun p => (p.1, maskFilter mask p.2))⟩
    match selectDescribe sub cols with
    | .error e => .error e
    | .ok d =>
      match groupedStats df cols gcol vs with
      | .error e => .error e
      | .ok rest => .ok ((v.pyStr, d) :: rest)

/-- The column selection of `calculate_summary_stats`: the explicit
list when given, the numeric columns of the table otherwise. -/
def resolveCols (df : Table) (columns : Option (List String)) : List String :=
  match columns with
  | some cs => cs
  | none => df.numericColNames

/-- `calculate_summary_stats`: describe the chosen columns (numeric
columns by default), either over the whole table or once per distinct
value of the grouping column, keyed by the stringified group value.
The group filter uses pandas `==`, under which NaN matches nothing. -/
def calculate_summary_stats (tools : DataAnalysisTools) (data_var : String)
    (columns : Option (List String)) (group_by : Option String) : Except String StatsOut :=
  match List.lookup data_var tools.dataframes with
  | none => .error ("Dataset " ++ data_var ++ " not found")
  | some df =>
    let cols := resolveCols df columns
    match group_by with
    | none =>
      match selectDescribe df cols with
      | .error e => .error e
      | .ok d => .ok (.plain d)
    | some g =>
      match df.lookup g with
      | none => .error ("KeyError: " ++ g)
      | some gcol =>
        match groupedStats df cols gcol (uniqueCells gcol) with
        | .error e => .error e
        | .ok gs => .ok (.byGroup gs)

end DataAnalysisTools

/-- One invocation of one of the five chart builders of the catalog
(the operations §4.1 of the spec calls the "chart builders"; the
correlation-matrix heat map is a separate operation with no value
column). -/
inductive ChartBuilderCall
  | scatter (x y : String)
  | line (x y : String)
  | bar (x y : String) (group_by : Option String)
  | histogram (col : String) (bins : Nat)
  | box (col : String) (group_by : Option String)

/-- The column a chart-builder call coerces to numeric (its y/value
column). -/
def ChartBuilderCall.valueCol : ChartBuilderCall → String
  | .scatter _ y => y
  | .line _ y => y
  | .bar _ y _ => y
  | .histogram c _ => c
  | .box c _ => c

/-- Dispatch a chart-builder call to the corresponding catalog
operation. -/
def runChartBuilder (op : ChartBuilderCall) (tools : DataAnalysisTools)
    (fname data_var : String) (title : Option String) :
    DataAnalysisTools × Except String PlotResult :=
  match op with
  | .scatter x y => tools.create_scatter_plot fname data_var x y title
  | .line x y => tools.create_line_plot fname data_var x y title
  | .bar x y g => tools.create_bar_plot fname data_var x y title g
  | .histogram c b => tools.create_histogram fname data_var c b title
  | .box c g => tools.create_box_plot fname data_var c title g

/-! ## Router and Code Execution Step (nodes.py)

Messages are modelled by their content strings: the router and the
code-execution step consult nothing else of a message, and the roles of
the messages they append are fixed.  The sandboxed REPL
(`langchain_experimental`'s `PythonREPL`) always returns captured stdout
— or the `repr` of a raised exception — as a *string*; it enters as the
oracle `replRun` from the executed statement to that string.  Statements
before the last are run for side effects only; no verified property
observes their effects, which the oracle absorbs. -/

/-- One record of the `intermediate_outputs` log.  A success record
carries `raw_output`/`processed_output` and no `error`; a failure record
carries `error` and neither output field.  (`raw_output` is stringified
only after `output` has already been replaced by the formatted display
text, so the two fields coincide.) -/
structure StepRecord where
  step : Nat
  timestamp : String
  thought : String
  code : String
  raw_output : Option String
  processed_output : Option String
  success : Bool
  error : Option String
deriving DecidableEq, Repr

/-- Step indices are contiguous starting at 1: the record at position
`i` carries step index `i + 1` (the invariant §3 of the spec states for
`intermediate_outputs`). -/
def contiguousSteps (l : List StepRecord) : Prop :=
  ∀ i (h : i < l.length), (l.get ⟨i, h⟩).step = i + 1

/-- The graph state (`AgentState` of state.py): message contents,
the artifact-path accumulator (a dict keyed by category; `none` models
the key being absent from the state dict), the input descriptors and
the per-step log (`none` likewise models absence). -/
structure AgentState where
  messages : List String
  output_paths : Option (List (String × List String))
  input_data : List InputData
  intermediate_outputs : Option (List StepRecord)

/-- `route_to_tools`: route on the latest message only — a fenced python
block goes to the tools node, a results-summary marker loops back to the
model, anything else ends the turn. -/
def route_to_tools (messages : List String) : String :=
  let last_message := messages.getLastD ""
  if strContains last_message "```python" then "tools"
  else if strContains last_message "Visualization Analysis:" ||
          strContains last_message "Analysis Results:" then "model"
  else "end"

/-- Extraction of the thought and code segments from the latest message:
`content.split("```python")[1].split("```")[0]` and
`content.split("Thought:")[1].split("Code:")[0]`; `none` models the
`IndexError` when either delimiter is absent. -/
def parseThoughtCode (content : String) : Option (String × String) :=
  match strSplitOn content "```python" with
  | _ :: seg :: _ =>
    let code_block := strTrim ((strSplitOn seg "```").headD "")
    match strSplitOn content "Thought:" with
    | _ :: tseg :: _ => some ((strTrim ((strSplitOn tseg "Code:").headD "")), code_block)
    | _ => none
  | _ => none

/-- The catalog operations whose presence in the final statement selects
the visualization special case. -/
def vizFuncNames : List String :=
  ["create_scatter_plot", "create_line_plot", "create_bar_plot",
   "create_histogram", "create_box_plot", "create_correlation_matrix"]

/-- Is the value a chart-handle dict (`'figure' in output and 'filename'
in output`)? -/
def isFigFileDict : PyVal → Bool
  | .dict es => (List.lookup "figure" es).isSome && (List.lookup "filename" es).isSome
  | _ => false

mutual
/-- `json.dumps` of one value (values that `json.dumps` would reject do
not reach this serializer from the metrics the step formats). -/
def jsonValStr : PyVal → String
  | .strv s => "\"" ++ s ++ "\""
  | .numv q => if q.den = 1 then toString q.num else toString q
  | .boolv b => if b then "true" else "false"
  | .nonev => "null"
  | .listv xs => "[" ++ String.intercalate ", " (jsonValItems xs) ++ "]"
  | .dict es => "\x7b" ++ String.intercalate ", " (jsonValEntries es) ++ "\x7d"
  | v => "\"<" ++ v.typeName ++ ">\""

/-- Serialized list items. -/
def jsonValItems : List PyVal → List String
  | [] => []
  | v :: rest => jsonValStr v :: jsonValItems rest

/-- Serialized object members. -/
def jsonValEntries : List (String × PyVal) → List String
  | [] => []
  | (k, v) :: rest => ("\"" ++ k ++ "\": " ++ jsonValStr v) :: jsonValEntries rest
end

/-- `json.dumps(metrics, indent=2)`: the top-level object pretty-printed
two-space indented (nested values rendered compactly — an abstraction of
the full pretty-printer that no verified property inspects). -/
def jsonDumps2 (es : List (String × PyVal)) : String :=
  if es.isEmpty then "\x7b\x7d"
  else "\x7b\n" ++
    String.intercalate ",\n" (es.map (fun p => "  \"" ++ p.1 ++ "\": " ++ jsonValStr p.2)) ++
    "\n\x7d"

/-- The display block for a captured `get_columns` result. -/
def columnsDisplay (es : List (String × PyVal)) : String :=
  let count := ((List.lookup "count" es).getD PyVal.nonev).pyStr
  let cols := match List.lookup "available_columns" es with
    | some (PyVal.listv xs) => xs
    | _ => []
  String.intercalate "\n"
    ["Available Columns:", "----------------", "Total columns: " ++ count, "",
     "Columns:", "--------",
     String.intercalate "\n" (cols.map (fun c => "- " ++ c.pyStr))]

/-- The generic "Analysis Results" display block. -/
def analysisResultsDisplay (r : AnalysisResults) : String :=
  String.intercalate "\n"
    (["Analysis Results:", "----------------"] ++ r.insights ++
     ["", "Metrics:", "--------", jsonDumps2 r.metrics])

/-- The display block the visualization special case produces from a
chart-handle dict. -/
def vizDisplay (es : List (String × PyVal)) (fn : String) : String :=
  let r := AnalysisAgent.analyze (PyVal.dict es) (some "visualization")
  if r.success then
    String.intercalate "\n"
      (["Visualization created successfully.", "View at images/plotly_figures/" ++ fn, ""] ++
       r.insights)
  else
    String.intercalate "\n"
      ["Visualization created successfully.", "View at images/plotly_figures/" ++ fn, "",
       "Unable to analyze visualization."]

/-- The "process non-visualization outputs" block (lines 232–258 of
nodes.py): interpret the captured value and format the display text. -/
def processOutput (out : PyVal) : String :=
  let r := AnalysisAgent.analyze out none
  if r.success then
    if r.data_type = "dict" &&
       (match out with
        | PyVal.dict es => (List.lookup "available_columns" es).isSome
        | _ => false) then
      match out with
      | PyVal.dict es => columnsDisplay es
      | _ => analysisResultsDisplay r
    else analysisResultsDisplay r
  else "Analysis failed: " ++ (r.error.getD "None")

/-- Append a filename to the `html` accumulator, initializing the state
key when absent; a present dict without an `html` entry is a
`KeyError`. -/
def appendHtml (paths : Option (List (String × List String))) (fn : String) :
    Except String (List (String × List String)) :=
  let p0 := paths.getD [("html", [])]
  match List.lookup "html" p0 with
  | some l => .ok (assocSet p0 "html" (l ++ [fn]))
  | none => .error "KeyError: html"

/-- `call_tools` (the Code Execution Step): parse thought and code from
the latest message, build a fresh catalog from the turn's input data,
run the code, interpret and format the final statement's output, log one
step record, and append the display text as a new message.  A parse or
initialization failure appends only a diagnostic message.  `fs` is the
filesystem oracle, `now` the timestamp oracle and `replRun` the REPL
oracle. -/
def call_tools (fs : FileSystem) (now : String) (replRun : String → String)
    (state : AgentState) : AgentState :=
  let content := state.messages.getLastD ""
  match parseThoughtCode content with
  | none =>
    { state with messages := state.messages ++
        ["Code execution failed. Invalid message format. Expected 'Thought:' followed by 'Code:' with Python code block."] }
  | some (thought, code_block) =>
    match DataAnalysisTools.init fs state.input_data with
    | .error e =>
      { state with messages := state.messages ++
          ["Code execution failed. Failed to initialize tools: " ++ e] }
    | .ok tools =>
      let statements := strSplitOn (strTrim code_block) "\n"
      let last_stmt := strTrim (statements.getLastD "")
      let oldRecords := state.intermediate_outputs.getD []
      let region : Except String (Option (List (String × List String)) × String) :=
        if last_stmt = "" || strStartsWith last_stmt "#" then
          -- the final statement was skipped, so `output` is never bound
          .error "local variable output referenced before assignment"
        else
          let out0 : PyVal :=
            if strContains last_stmt "get_columns" then
              match tools.get_columns "hmda" with
              | .ok cols => PyVal.dict
                  [("available_columns", PyVal.listv (cols.map PyVal.strv)),
                   ("count", PyVal.numv (cols.length : Rat))]
              | .error e => PyVal.strv e
            else PyVal.strv (replRun last_stmt)
          let isViz := !(strContains last_stmt "get_columns") &&
            vizFuncNames.any (fun f => strContains last_stmt f)
          let branch : Except String (Option (List (String × List String)) × PyVal) :=
            if isViz && isFigFileDict out0 then
              match out0 with
              | PyVal.dict es =>
                let fn := ((List.lookup "filename" es).getD PyVal.nonev).pyStr
                match appendHtml state.output_paths fn with
                | .error e => .error e
                | .ok p1 => .ok (some p1, PyVal.strv (vizDisplay es fn))
              | _ => .ok (state.output_paths, out0)
            else .ok (state.output_paths, out0)
          match branch with
          | .error e => .error e
          | .ok (paths1, out1) =>
            let display := if isFigFileDict out1 then out1.pyStr else processOutput out1
            .ok (paths1, display)
      match region with
      | .ok (paths1, display) =>
        let rec1 : StepRecord :=
          ⟨oldRecords.length + 1, now, thought, code_block, some display, some display, true, none⟩
        { state with
          output_paths := paths1,
          intermediate_outputs := some (oldRecords ++ [rec1]),
          messages := state.messages ++ [display] }
      | .error e =>
        let rec1 : StepRecord :=
          ⟨oldRecords.length + 1, now, thought, code_block, none, none, false, some e⟩
        let r := AnalysisAgent.analyze (PyVal.strv e) none
        let display := if r.success then
            String.intercalate "\n" (["Code Execution Error:", "-------------------"] ++ r.insights)
          else "Error: " ++ e
        { state with
          intermediate_outputs := some (oldRecords ++ [rec1]),
          messages := state.messages ++ [display] }

/-! ## The Turn Controller (`PythonChatbot`, backend.py)

The controller owns session-lifetime history, artifact paths keyed by
turn, and the step log.  The cyclic graph run (`self.graph.invoke`)
involves the external language model, so it enters as the oracle
`invoke` from the constructed input state to the final graph state. -/

/-- The per-category artifact-path sets of one stored turn entry.
Python sets are represented by duplicate-free lists; properties are
stated through membership. -/
structure OutputPaths where
  pickle : List String
  html : List String
deriving DecidableEq, Repr

/-- The controller state: chat history (message contents), the session
step log, and per-turn artifact deltas keyed by message index. -/
structure PythonChatbot where
  chat_history : List String
  intermediate_outputs : List StepRecord
  output_paths : List (Nat × OutputPaths)

/-- The final graph state as the controller reads it back. -/
structure GraphResult where
  messages : List String
  output_paths : Option OutputPaths
  intermediate_outputs : Option (List StepRecord)

/-- Replace (or insert) a turn entry, as Python dict assignment does. -/
def assocSetNat (m : List (Nat × OutputPaths)) (k : Nat) (v : OutputPaths) :
    List (Nat × OutputPaths) :=
  if (List.lookup k m).isSome then m.map (fun p => if p.1 = k then (k, v) else p)
  else m ++ [(k, v)]

/-- Python set difference `set(a) - set(b)` on filename lists. -/
def setDiff (a b : List String) : List String :=
  a.dedup.filter (fun x => !b.contains x)

/-- The accumulated artifact sets before a turn:
`set(sum([paths.get(cat, []) for paths in self.output_paths.values()], []))`. -/
def startingPathsOf (bot : PythonChatbot) : OutputPaths :=
  { pickle := ((bot.output_paths.map (fun p => p.2.pickle)).foldr (fun a b => a ++ b) []).dedup,
    html := ((bot.output_paths.map (fun p => p.2.html)).foldr (fun a b => a ++ b) []).dedup }

/-- `reset_chat`: clear all three accumulators. -/
def reset_chat : PythonChatbot :=
  ⟨[], [], []⟩

/-- The input state `user_sent_message` builds for the graph run: the
stored history plus the tagged user entry, and the artifact accumulator
seeded with the pre-turn snapshot. -/
def mkInputState (bot : PythonChatbot) (user_query : String)
    (input_data : List InputData) : AgentState :=
  let starting := startingPathsOf bot
  { messages := bot.chat_history ++ ["User Query: " ++ user_query],
    output_paths := some [("pickle", starting.pickle), ("html", starting.html)],
    input_data := input_data,
    intermediate_outputs := none }

/-- `user_sent_message`: snapshot the accumulated artifact sets, build
the input state (`mkInputState`), run the graph, replace the stored
history, store the per-category delta (result minus snapshot) keyed by
`len(chat_history) - 1`, and extend the session step log. -/
def user_sent_message (invoke : AgentState → GraphResult) (bot : PythonChatbot)
    (user_query : String) (input_data : List InputData) : PythonChatbot :=
  let starting := startingPathsOf bot
  let result := invoke (mkInputState bot user_query input_data)
  let bot1 := { bot with chat_history := result.messages }
  let bot2 := match result.output_paths with
    | none => bot1
    | some rp =>
      let np : OutputPaths :=
        { pickle := setDiff rp.pickle starting.pickle,
          html := setDiff rp.html starting.html }
      { bot1 with output_paths := assocSetNat bot1.output_paths (result.messages.length - 1) np }
  match result.intermediate_outputs with
  | none => bot2
  | some io => { bot2 with intermediate_outputs := bot2.intermediate_outputs ++ io }

/-! ## Verified claims

One theorem per claim follows, each preceded by the helper lemmas it
needs.  `open AnalysisAgent` brings the Output Interpreter's operations
into scope. -/

open AnalysisAgent


lemma analyze_visualization_success (d : PyVal) (r : AnalysisResults) :
    (analyze_visualization d r).success = r.success := by
  unfold analyze_visualization
  repeat' split
  all_goals simp only []
  all_goals repeat' split
  all_goals rfl

lemma analyze_error_success (d : PyVal) (r r' : AnalysisResults)
    (h : analyze_error d r = .ok r') : r'.success = r.success := by
  unfold analyze_error at h
  try simp only [] at h
  repeat' split at h
  all_goals first
    | (injection h with h2
       subst h2
       rfl)
    | injection h

lemma analyze_dataframe_success (d : PyVal) (r r' : AnalysisResults)
    (h : analyze_dataframe d r = .ok r') : r'.success = r.success := by
  unfold analyze_dataframe at h
  try simp only [] at h
  repeat' split at h
  all_goals first
    | (injection h with h2
       subst h2
       rfl)
    | injection h

lemma analyze_series_success (d : PyVal) (r r' : AnalysisResults)
    (h : analyze_series d r = .ok r') : r'.success = r.success := by
  unfold analyze_series at h
  try simp only [] at h
  repeat' split at h
  all_goals first
    | (injection h with h2
       subst h2
       rfl)
    | injection h

lemma analyze_dict_success (d : PyVal) (r r' : AnalysisResults)
    (h : analyze_dict d r = .ok r') : r'.success = r.success := by
  unfold analyze_dict at h
  try simp only [] at h
  repeat' split at h
  all_goals first
    | (injection h with h2
       subst h2
       rfl)
    | injection h

lemma analyze_list_core_success (v : PyVal) (r r' : AnalysisResults)
    (h : analyze_list_core v r = .ok r') : r'.success = r.success := by
  unfold analyze_list_core at h
  try simp only [] at h
  repeat' split at h
  all_goals first
    | (injection h with h2
       subst h2
       rfl)
    | injection h

lemma analyze_list_success (d : PyVal) (r r' : AnalysisResults)
    (h : analyze_list d r = .ok r') : r'.success = r.success := by
  unfold analyze_list at h
  repeat' split at h
  · exact analyze_list_core_success _ _ _ h
  · injection h with h2
    subst h2
    rfl
  · exact analyze_list_core_success _ _ _ h

/-- C3: `analyze` is total: for every input value and optional hint it
returns a result with the success flag set; when classification or
summarization raises internally, the returned result is exactly
`{success: false, data_type: "unknown", error: message}` with empty
metrics and insights. -/
theorem claim_C3 (data : PyVal) (hint : Option String) :
    (analyze data hint).success = true ∨
    ∃ msg, analyze data hint =
      { success := false, data_type := "unknown", metrics := [], insights := [],
        error := some msg } := by
  have main : ∀ r, analyzeSteps data hint = .ok r → r.success = true := by
    intro r h
    unfold analyzeSteps at h
    try simp only [] at h
    repeat' split at h
    all_goals
      first
        | (injection h with h2
           subst h2
           first
             | exact analyze_visualization_success _ _
             | rfl)
        | exact analyze_error_success _ _ _ h
        | exact analyze_dataframe_success _ _ _ h
        | exact analyze_series_success _ _ _ h
        | exact analyze_dict_success _ _ _ h
        | exact analyze_list_success _ _ _ h
  cases h : analyzeSteps data hint with
  | ok r =>
    left
    have hs := main r h
    simp [analyze, h, hs]
  | error m =>
    right
    exact ⟨m, by simp [analyze, h]⟩

/-- The last element `state["messages"][-1]` through the default used in
the embedding. -/
lemma getLastD_of_getLast? (l : List String) (m : String) (h : l.getLast? = some m) :
    l.getLastD "" = m := by
  rw [List.getLastD_eq_getLast?, h]
  rfl

/-- C4: the Router is a deterministic function of the latest message
only: a fenced python block routes to the tools state regardless of
other content; otherwise a results-summary marker routes to the model
state; otherwise the terminal end state. -/
theorem claim_C4 (msgs : List String) (m : String) (hm : msgs.getLast? = some m) :
    (strContains m "```python" = true → route_to_tools msgs = "tools") ∧
    (strContains m "```python" = false →
      (strContains m "Visualization Analysis:" || strContains m "Analysis Results:") = true →
      route_to_tools msgs = "model") ∧
    (strContains m "```python" = false →
      (strContains m "Visualization Analysis:" || strContains m "Analysis Results:") = false →
      route_to_tools msgs = "end") ∧
    (∀ msgs' : List String, msgs'.getLast? = some m →
      route_to_tools msgs' = route_to_tools msgs) := by
  have hd : msgs.getLastD "" = m := getLastD_of_getLast? msgs m hm
  refine ⟨?_, ?_, ?_, ?_⟩
  · intro h
    unfold route_to_tools
    rw [hd]
    simp [h]
  · intro h1 h2
    unfold route_to_tools
    rw [hd]
    simp [h1, h2]
  · intro h1 h2
    unfold route_to_tools
    rw [hd]
    simp [h1, h2]
  · intro msgs' h'
    unfold route_to_tools
    rw [hd, getLastD_of_getLast? msgs' m h']

/-- C4 witness: the three router outcomes at concrete messages. -/
theorem claim_C4_witness :
    route_to_tools ["Thought: t\n```python\ncode\n```"] = "tools" ∧
    route_to_tools ["Analysis Results:\nstuff"] = "model" ∧
    route_to_tools ["plain text"] = "end" :=
  ⟨(claim_C4 ["Thought: t\n```python\ncode\n```"] _ rfl).1 (by decide),
   (claim_C4 ["Analysis Results:\nstuff"] _ rfl).2.1 (by decide) (by decide),
   (claim_C4 ["plain text"] _ rfl).2.2.1 (by decide) (by decide)⟩

/-- C6 counterexample: a chart-handle mapping (carrying a "figure" key)
is classified by the hint-free cascade as a plain mapping ("dict"), not
as the visualization category the claim asserts. -/
theorem claim_C6_counterexample :
    determine_data_type
      (PyVal.dict [("figure", PyVal.figv ⟨[], none⟩), ("filename", PyVal.strv "plot.html")])
      = "dict" ∧ ("dict" : String) ≠ "visualization" :=
  ⟨rfl, by decide⟩

/-- C6 (amended): the first rule of the hint-free cascade maps a string
ending in the known artifact extension or containing the known success
marker phrase to the visualization category; a chart-handle mapping is
instead classified as a mapping ("dict") and reaches visualization
analysis only through the explicit type hint. -/
theorem claim_C6 :
    (∀ s : String,
      (strEndsWith s ".pickle" || strContains s "Visualization created successfully") = true →
      determine_data_type (PyVal.strv s) = "visualization") ∧
    (∀ es : List (String × PyVal), determine_data_type (PyVal.dict es) = "dict") := by
  constructor
  · intro s h
    unfold determine_data_type
    simp [h]
  · intro es
    rfl

/-- C6 witness: both string forms of the first rule, and a concrete
chart-handle mapping. -/
theorem claim_C6_witness :
    determine_data_type (PyVal.strv "abc.pickle") = "visualization" ∧
    determine_data_type (PyVal.strv "Visualization created successfully.") = "visualization" :=
  ⟨claim_C6.1 "abc.pickle" (by decide),
   claim_C6.1 "Visualization created successfully." (by decide)⟩

/-- C10: a chart-handle mapping whose figure slot does not hold a real
figure makes the visualization summarizer raise internally; `analyze`
with the visualization hint then returns success **true** with the
exception message in the error field and no distribution metrics. -/
theorem claim_C10 :
    (analyze (PyVal.dict [("figure", PyVal.strv "not a figure")]) (some "visualization")).success
      = true ∧
    (analyze (PyVal.dict [("figure", PyVal.strv "not a figure")]) (some "visualization")).data_type
      = "visualization" ∧
    (analyze (PyVal.dict [("figure", PyVal.strv "not a figure")]) (some "visualization")).error
      = some "AttributeError: str object has no attribute data" ∧
    (analyze (PyVal.dict [("figure", PyVal.strv "not a figure")]) (some "visualization")).metrics
      = [] ∧
    List.lookup "median"
      (analyze (PyVal.dict [("figure", PyVal.strv "not a figure")]) (some "visualization")).metrics
      = none :=
  ⟨rfl, rfl, rfl, rfl, rfl⟩

/-- C1 counterexample: the exact example message of the claim — an
execution-error string containing the "Expected one of [...] but
received ..." pattern — is classified "generic", not "error", and no
available-options metric is produced. -/
theorem claim_C1_counterexample :
    strContains "Expected one of ['a','b','c'] but received 'd'" "Expected one of" = true ∧
    (analyze (PyVal.strv "Expected one of ['a','b','c'] but received 'd'") none).data_type
      = "generic" ∧
    (analyze (PyVal.strv "Expected one of ['a','b','c'] but received 'd'") none).data_type
      ≠ "error" ∧
    List.lookup "available_columns"
      (analyze (PyVal.strv "Expected one of ['a','b','c'] but received 'd'") none).metrics
      = none :=
  ⟨by decide, rfl, by decide, rfl⟩

/-- C1 (amended): for every execution-error string that the classifier
recognizes as a serialized error (it begins with the `ValueError`
prefix) and whose unwrapped message contains an "Expected one of [...]
but received ..." pattern with a parseable options list, hint-free
`analyze` classifies it as an error, stores the parsed options list in
the `available_columns` metric, and emits the invalid-column insight
plus the option count. -/
theorem claim_C1 (s : String) (xs : List PyVal)
    (herr : determine_data_type (PyVal.strv s) = "error")
    (hopt : strContains (stripValueErrorWrapper s) "Expected one of" = true)
    (hxs : extractExpectedOptions (stripValueErrorWrapper s) = some (PyVal.listv xs)) :
    (analyze (PyVal.strv s) none).data_type = "error" ∧
    List.lookup "available_columns" (analyze (PyVal.strv s) none).metrics
      = some (PyVal.listv xs) ∧
    "Error: Invalid column name specified" ∈ (analyze (PyVal.strv s) none).insights ∧
    ("Available columns: " ++ toString xs.length) ∈ (analyze (PyVal.strv s) none).insights := by
  have h1 : analyzeSteps (PyVal.strv s) none
      = analyze_error (PyVal.strv s)
          { success := true, data_type := "error", metrics := [], insights := [], error := none } := by
    unfold analyzeSteps
    simp only [Option.getD]
    rw [herr]
    rw [if_neg (by decide : ¬ ("error" = "visualization"))]
    rw [if_pos rfl]
  have h2 : analyze_error (PyVal.strv s)
        { success := true, data_type := "error", metrics := [], insights := [], error := none }
      = .ok { success := true, data_type := "error",
              metrics :=
                [("error_type",
                  PyVal.strv (if strStartsWith (stripValueErrorWrapper s) "Value" then "ValueError"
                              else "Unknown")),
                 ("message_length", PyVal.numv ((stripValueErrorWrapper s).length : Rat)),
                 ("available_columns", PyVal.listv xs)],
              insights :=
                ["Error: Invalid column name specified",
                 "Available columns: " ++ toString xs.length,
                 "Use one of the available columns listed in the metrics"],
              error := none } := by
    unfold analyze_error
    simp only []
    rw [hopt, hxs]
    rfl
  have hA : analyze (PyVal.strv s) none
      = { success := true, data_type := "error",
          metrics :=
            [("error_type",
              PyVal.strv (if strStartsWith (stripValueErrorWrapper s) "Value" then "ValueError"
                          else "Unknown")),
             ("message_length", PyVal.numv ((stripValueErrorWrapper s).length : Rat)),
             ("available_columns", PyVal.listv xs)],
          insights :=
            ["Error: Invalid column name specified",
             "Available columns: " ++ toString xs.length,
             "Use one of the available columns listed in the metrics"],
          error := none } := by
    unfold analyze
    rw [h1, h2]
  refine ⟨?_, ?_, ?_, ?_⟩
  · rw [hA]
  · rw [hA]
    rfl
  · rw [hA]
    simp
  · rw [hA]
    simp

/-- C1 witness: the REPL-serialized form of the claim's example message
yields the error classification and exactly 3 available options. -/
theorem claim_C1_witness :
    (analyze (PyVal.strv "ValueError(\"Expected one of ['a','b','c'] but received 'd'\")") none).data_type = "error" ∧
    List.lookup "available_columns"
        (analyze (PyVal.strv "ValueError(\"Expected one of ['a','b','c'] but received 'd'\")") none).metrics
      = some (PyVal.listv [PyVal.strv "a", PyVal.strv "b", PyVal.strv "c"]) ∧
    "Error: Invalid column name specified"
      ∈ (analyze (PyVal.strv "ValueError(\"Expected one of ['a','b','c'] but received 'd'\")") none).insights ∧
    ("Available columns: " ++ toString [PyVal.strv "a", PyVal.strv "b", PyVal.strv "c"].length)
      ∈ (analyze (PyVal.strv "ValueError(\"Expected one of ['a','b','c'] but received 'd'\")") none).insights :=
  claim_C1 "ValueError(\"Expected one of ['a','b','c'] but received 'd'\")"
    [PyVal.strv "a", PyVal.strv "b", PyVal.strv "c"] rfl (by decide) rfl

/-- C7: catalog construction fails with a validation error on an empty
descriptor list, a missing first data path, or a zero-row table; a
successfully constructed catalog is never partial — it always carries
the fully loaded, non-empty table bound under the fixed name. -/
theorem claim_C7 (fs : FileSystem) (l : List InputData) :
    (l = [] → ∃ m, DataAnalysisTools.init fs l = .error m) ∧
    (∀ d rest, l = d :: rest → fs.read d.data_path = none →
      ∃ m, DataAnalysisTools.init fs l = .error m) ∧
    (∀ d rest t, l = d :: rest → fs.read d.data_path = some t → t.nrows = 0 →
      ∃ m, DataAnalysisTools.init fs l = .error m) ∧
    (∀ c, DataAnalysisTools.init fs l = .ok c →
      ∃ d rest t, l = d :: rest ∧ fs.read d.data_path = some t ∧
        t.isEmptyDf = false ∧ c.dataframes = [("hmda", t)]) := by
  refine ⟨?_, ?_, ?_, ?_⟩
  · rintro rfl
    exact ⟨_, rfl⟩
  · rintro d rest rfl hr
    by_cases hp : d.data_path = ""
    · exact ⟨"Invalid data path: " ++ d.data_path, by simp [DataAnalysisTools.init, hp]⟩
    · exact ⟨"Invalid data path: " ++ d.data_path, by simp [DataAnalysisTools.init, hp, hr]⟩
  · rintro d rest t rfl hr hn
    by_cases hp : d.data_path = ""
    · exact ⟨"Invalid data path: " ++ d.data_path, by simp [DataAnalysisTools.init, hp]⟩
    · exact ⟨"Error loading " ++ d.data_path ++ ": Dataset is empty",
        by simp [DataAnalysisTools.init, hp, hr, Table.isEmptyDf, hn]⟩
  · intro c h
    cases l with
    | nil => simp [DataAnalysisTools.init] at h
    | cons d rest =>
      by_cases hp : d.data_path = ""
      · simp [DataAnalysisTools.init, hp] at h
      · cases hr : fs.read d.data_path with
        | none => simp [DataAnalysisTools.init, hp, hr] at h
        | some t =>
          by_cases he : t.isEmptyDf = true
          · simp [DataAnalysisTools.init, hp, hr, he] at h
          · have hef : t.isEmptyDf = false := by simpa using he
            refine ⟨d, rest, t, rfl, hr, hef, ?_⟩
            simp [DataAnalysisTools.init, hp, hr, hef] at h
            cases c
            simp_all

/-- C7 witness: construction on the empty descriptor list fails, and a
concrete valid descriptor yields the fully bound catalog. -/
theorem claim_C7_witness :
    ∃ m, DataAnalysisTools.init [] [] = .error m :=
  (claim_C7 [] []).1 rfl

/-- In-place column replacement preserves every binding with the
replaced name, first occurrence included. -/
lemma lookup_map_set (l : List (String × List Cell)) (n : String) (col : List Cell)
    (h : (List.lookup n l).isSome) :
    List.lookup n (l.map (fun p => if p.1 = n then (p.1, col) else p)) = some col := by
  induction l with
  | nil => simp at h
  | cons a rest ih =>
    obtain ⟨k, v⟩ := a
    by_cases ha : k = n
    · subst ha
      have hmap : List.map (fun p => if p.1 = k then (p.1, col) else p) ((k, v) :: rest)
          = (k, col) :: List.map (fun p => if p.1 = k then (p.1, col) else p) rest := by
        simp
      rw [hmap]
      simp [List.lookup]
    · have hb : (n == k) = false := beq_eq_false_iff_ne.mpr (fun e => ha e.symm)
      have hmap : List.map (fun p => if p.1 = n then (p.1, col) else p) ((k, v) :: rest)
          = (k, v) :: List.map (fun p => if p.1 = n then (p.1, col) else p) rest := by
        simp [ha]
      rw [hmap]
      simp only [List.lookup, hb]
      simp only [List.lookup, hb] at h
      exact ih h

/-- In-place column replacement leaves every other column binding
untouched. -/
lemma lookup_map_set_ne (l : List (String × List Cell)) (n c : String) (col : List Cell)
    (hc : c ≠ n) :
    List.lookup c (l.map (fun p => if p.1 = n then (p.1, col) else p)) = List.lookup c l := by
  induction l with
  | nil => rfl
  | cons a rest ih =>
    obtain ⟨k, v⟩ := a
    by_cases ha : k = n
    · subst ha
      have hb : (c == k) = false := beq_eq_false_iff_ne.mpr hc
      have hmap : List.map (fun p => if p.1 = k then (p.1, col) else p) ((k, v) :: rest)
          = (k, col) :: List.map (fun p => if p.1 = k then (p.1, col) else p) rest := by
        simp
      rw [hmap]
      simp only [List.lookup, hb]
      exact ih
    · have hmap : List.map (fun p => if p.1 = n then (p.1, col) else p) ((k, v) :: rest)
          = (k, v) :: List.map (fun p => if p.1 = n then (p.1, col) else p) rest := by
        simp [ha]
      rw [hmap]
      by_cases hck : c = k
      · subst hck
        simp [List.lookup]
      · have hb : (c == k) = false := beq_eq_false_iff_ne.mpr hck
        simp only [List.lookup, hb]
        exact ih

/-- C8: every chart-builder operation destructively coerces its value
column on the catalog's bound table — after a call that found the
dataset and the column, the bound mapping holds the table whose value
column is the numeric coercion of the old one (non-parsing text entries
becoming missing, not errors), while every other column is unchanged. -/
theorem claim_C8 (op : ChartBuilderCall) (tools : DataAnalysisTools)
    (fname data_var : String) (title : Option String) (t : Table) (col : List Cell)
    (ht : List.lookup data_var tools.dataframes = some t)
    (hc : t.lookup op.valueCol = some col) :
    (runChartBuilder op tools fname data_var title).1.dataframes
      = assocSet tools.dataframes data_var (t.setCol op.valueCol (col.map toNumericCell)) ∧
    (t.setCol op.valueCol (col.map toNumericCell)).lookup op.valueCol
      = some (col.map toNumericCell) ∧
    (∀ c2, c2 ≠ op.valueCol →
      (t.setCol op.valueCol (col.map toNumericCell)).lookup c2 = t.lookup c2) ∧
    (∀ s2, parseNumStr s2 = none → toNumericCell (.text s2) = .missing) := by
  refine ⟨?_, ?_, ?_, ?_⟩
  · cases op <;>
    · simp only [runChartBuilder, DataAnalysisTools.create_scatter_plot,
        DataAnalysisTools.create_line_plot, DataAnalysisTools.create_bar_plot,
        DataAnalysisTools.create_histogram, DataAnalysisTools.create_box_plot,
        DataAnalysisTools.coerceValueColumn, ChartBuilderCall.valueCol] at hc ⊢
      rw [ht]
      simp only []
      rw [hc]
      simp only []
      repeat' split
      all_goals rfl
  · exact lookup_map_set t.cols op.valueCol (col.map toNumericCell)
      (by unfold Table.lookup at hc; rw [hc]; rfl)
  · intro c2 hc2
    exact lookup_map_set_ne t.cols op.valueCol c2 (col.map toNumericCell) hc2
  · intro s2 hs2
    simp [toNumericCell, hs2]

/-- C8 witness: a scatter call on a concrete two-column table coerces
column `b` in place. -/
theorem claim_C8_witness :
    (runChartBuilder (.scatter "a" "b")
        ⟨[("hmda", ⟨[("a", [Cell.num 1]), ("b", [Cell.text "zzz"])]⟩)]⟩
        "f.html" "hmda" none).1.dataframes
      = assocSet [("hmda", ⟨[("a", [Cell.num 1]), ("b", [Cell.text "zzz"])]⟩)] "hmda"
          ((⟨[("a", [Cell.num 1]), ("b", [Cell.text "zzz"])]⟩ : Table).setCol "b"
            ([Cell.text "zzz"].map toNumericCell)) ∧
    ((⟨[("a", [Cell.num 1]), ("b", [Cell.text "zzz"])]⟩ : Table).setCol "b"
        ([Cell.text "zzz"].map toNumericCell)).lookup "b"
      = some ([Cell.text "zzz"].map toNumericCell) ∧
    (∀ c2, c2 ≠ ("b" : String) →
      ((⟨[("a", [Cell.num 1]), ("b", [Cell.text "zzz"])]⟩ : Table).setCol "b"
          ([Cell.text "zzz"].map toNumericCell)).lookup c2
        = (⟨[("a", [Cell.num 1]), ("b", [Cell.text "zzz"])]⟩ : Table).lookup c2) ∧
    (∀ s2, parseNumStr s2 = none → toNumericCell (.text s2) = .missing) :=
  claim_C8 (.scatter "a" "b") ⟨[("hmda", ⟨[("a", [Cell.num 1]), ("b", [Cell.text "zzz"])]⟩)]⟩
    "f.html" "hmda" none _ _ rfl rfl

/-- Folding the first-occurrence collector over elements already present
in the accumulator leaves it unchanged. -/
lemma uniqueFold_absorb (l : List Cell) : ∀ acc : List Cell, (∀ c ∈ l, c ∈ acc) →
    l.foldl (fun acc c => if acc.contains c then acc else acc ++ [c]) acc = acc := by
  induction l with
  | nil => intro acc _; rfl
  | cons a rest ih =>
    intro acc h
    have ha : acc.contains a = true :=
      List.elem_eq_true_of_mem (h a (List.mem_cons_self a rest))
    simp only [List.foldl, ha, if_pos]
    exact ih acc (fun c hc => h c (List.mem_cons_of_mem a hc))

/-- A non-empty column whose cells all equal `v` has `[v]` as its pandas
`unique()`. -/
lemma uniqueCells_const (l : List Cell) (v : Cell) (hne : l ≠ [])
    (hall : ∀ c ∈ l, c = v) : DataAnalysisTools.uniqueCells l = [v] := by
  cases l with
  | nil => exact absurd rfl hne
  | cons a rest =>
    have ha : a = v := hall a (List.mem_cons_self a rest)
    subst ha
    unfold DataAnalysisTools.uniqueCells
    simp only [List.foldl, List.contains, List.elem, List.nil_append]
    have : ∀ c ∈ rest, c ∈ ([a] : List Cell) := by
      intro c hc
      rw [hall c (List.mem_cons_of_mem a hc)]
      exact List.mem_singleton_self a
    simpa using uniqueFold_absorb rest [a] this

/-- pandas `==` is reflexive away from missing values. -/
lemma pandasEq_refl (v : Cell) (hv : v ≠ Cell.missing) : pandasEq v v = true := by
  cases v with
  | num q => simp [pandasEq]
  | text s => simp [pandasEq]
  | missing => exact absurd rfl hv

/-- An all-true mask at least as long as the column selects every row. -/
lemma maskFilter_all_true (col : List Cell) : ∀ mask : List Bool,
    (∀ b ∈ mask, b = true) → col.length ≤ mask.length →
    DataAnalysisTools.maskFilter mask col = col := by
  induction col with
  | nil => intro mask _ _; rfl
  | cons a rest ih =>
    intro mask hm hlen
    cases mask with
    | nil => simp at hlen
    | cons b mrest =>
      have hb : b = true := hm b (List.mem_cons_self b mrest)
      subst hb
      have : DataAnalysisTools.maskFilter (true :: mrest) (a :: rest)
          = a :: DataAnalysisTools.maskFilter mrest rest := by
        simp [DataAnalysisTools.maskFilter, List.zip]
      rw [this]
      rw [ih mrest (fun x hx => hm x (List.mem_cons_of_mem true hx)) (Nat.le_of_succ_le_succ hlen)]

/-- C9 (amended): when the grouping column is non-empty, all its cells
equal one non-missing value `v`, and the table is rectangular, grouped
summary statistics return exactly one group — keyed by the stringified
`v` — whose describe summary is the very same `selectDescribe` result
the ungrouped call returns on the same data with the same column
selection (including the same error when a selected column is
missing). -/
theorem claim_C9 (tools : DataAnalysisTools) (data_var g : String) (df : Table)
    (columns : Option (List String)) (gcol : List Cell) (v : Cell)
    (hdv : List.lookup data_var tools.dataframes = some df)
    (hg : df.lookup g = some gcol)
    (hne : gcol ≠ [])
    (hall : ∀ c ∈ gcol, c = v)
    (hv : v ≠ Cell.missing)
    (hrect : ∀ p ∈ df.cols, (p : String × List Cell).2.length = gcol.length) :
    tools.calculate_summary_stats data_var columns (some g)
      = (DataAnalysisTools.selectDescribe df
            (DataAnalysisTools.resolveCols df columns)).map
          (fun d => DataAnalysisTools.StatsOut.byGroup [(v.pyStr, d)]) ∧
    tools.calculate_summary_stats data_var columns none
      = (DataAnalysisTools.selectDescribe df
            (DataAnalysisTools.resolveCols df columns)).map
          DataAnalysisTools.StatsOut.plain := by
  have hmaskAll : ∀ b ∈ gcol.map (fun c => pandasEq c v), b = true := by
    intro b hb
    obtain ⟨c, hcmem, rfl⟩ := List.mem_map.mp hb
    rw [hall c hcmem]
    exact pandasEq_refl v hv
  have hmaskLen : (gcol.map (fun c => pandasEq c v)).length = gcol.length :=
    List.length_map gcol _
  have hsubCols : ∀ L : List (String × List Cell), (∀ p ∈ L, p.2.length = gcol.length) →
      L.map (fun p => (p.1, DataAnalysisTools.maskFilter (gcol.map (fun c => pandasEq c v)) p.2)) = L := by
    intro L hL
    induction L with
    | nil => rfl
    | cons p rest ih =>
      obtain ⟨nm, c⟩ := p
      have h1 : DataAnalysisTools.maskFilter (gcol.map (fun c => pandasEq c v)) c = c := by
        apply maskFilter_all_true c _ hmaskAll
        rw [hmaskLen, hL ⟨nm, c⟩ (List.mem_cons_self _ rest)]
      simp only [List.map, h1]
      rw [ih (fun q hq => hL q (List.mem_cons_of_mem _ hq))]
  have hsub : (⟨df.cols.map
        (fun p => (p.1, DataAnalysisTools.maskFilter (gcol.map (fun c => pandasEq c v)) p.2))⟩ : Table)
      = df := by
    cases df with
    | mk cols => exact congrArg Table.mk (hsubCols cols hrect)
  have huniq : DataAnalysisTools.uniqueCells gcol = [v] := uniqueCells_const gcol v hne hall
  have hgrp : DataAnalysisTools.groupedStats df
        (DataAnalysisTools.resolveCols df columns) gcol [v]
      = (DataAnalysisTools.selectDescribe df
            (DataAnalysisTools.resolveCols df columns)).map
          (fun d => [(v.pyStr, d)]) := by
    unfold DataAnalysisTools.groupedStats
    simp only []
    rw [hsub]
    cases hsd : DataAnalysisTools.selectDescribe df
        (DataAnalysisTools.resolveCols df columns) with
    | error e => rfl
    | ok d =>
      unfold DataAnalysisTools.groupedStats
      rfl
  constructor
  · unfold DataAnalysisTools.calculate_summary_stats
    rw [hdv]
    simp only []
    rw [hg]
    dsimp only
    rw [huniq, hgrp]
    generalize DataAnalysisTools.selectDescribe df
        (DataAnalysisTools.resolveCols df columns) = S
    cases S with
    | error e => rfl
    | ok d => rfl
  · unfold DataAnalysisTools.calculate_summary_stats
    rw [hdv]
    dsimp only
    generalize DataAnalysisTools.selectDescribe df
        (DataAnalysisTools.resolveCols df columns) = S
    cases S with
    | error e => rfl
    | ok d => rfl

/-- C9 witness: a two-row table whose grouping column holds the single
value `"grp"`; the grouped call returns one group whose statistics are
the ungrouped describe result. -/
theorem claim_C9_witness :
    (⟨[("hmda", ⟨[("g", [Cell.text "grp", Cell.text "grp"]),
                  ("x", [Cell.num 1, Cell.num 2])]⟩)]⟩ : DataAnalysisTools).calculate_summary_stats
        "hmda" (some ["x"]) (some "g")
      = (DataAnalysisTools.selectDescribe
            ⟨[("g", [Cell.text "grp", Cell.text "grp"]), ("x", [Cell.num 1, Cell.num 2])]⟩
            (DataAnalysisTools.resolveCols
              ⟨[("g", [Cell.text "grp", Cell.text "grp"]), ("x", [Cell.num 1, Cell.num 2])]⟩
              (some ["x"]))).map
          (fun d => DataAnalysisTools.StatsOut.byGroup [((Cell.text "grp").pyStr, d)]) ∧
    (⟨[("hmda", ⟨[("g", [Cell.text "grp", Cell.text "grp"]),
                  ("x", [Cell.num 1, Cell.num 2])]⟩)]⟩ : DataAnalysisTools).calculate_summary_stats
        "hmda" (some ["x"]) none
      = (DataAnalysisTools.selectDescribe
            ⟨[("g", [Cell.text "grp", Cell.text "grp"]), ("x", [Cell.num 1, Cell.num 2])]⟩
            (DataAnalysisTools.resolveCols
              ⟨[("g", [Cell.text "grp", Cell.text "grp"]), ("x", [Cell.num 1, Cell.num 2])]⟩
              (some ["x"]))).map
          DataAnalysisTools.StatsOut.plain :=
  claim_C9
    ⟨[("hmda", ⟨[("g", [Cell.text "grp", Cell.text "grp"]), ("x", [Cell.num 1, Cell.num 2])]⟩)]⟩
    "hmda" "g"
    ⟨[("g", [Cell.text "grp", Cell.text "grp"]), ("x", [Cell.num 1, Cell.num 2])]⟩
    (some ["x"]) [Cell.text "grp", Cell.text "grp"] (Cell.text "grp")
    rfl rfl (by decide) (by decide) (by decide) (by decide)

/-- C9 counterexample: a grouping column holding exactly one distinct
value — the missing value NaN — produces one group whose statistics are
computed over zero rows (pandas `==` matches NaN against nothing), so
they do not match the ungrouped call on the same data. -/
theorem claim_C9_counterexample :
    (DataAnalysisTools.uniqueCells [Cell.missing]).length = 1 ∧
    (⟨[("hmda", ⟨[("g", [Cell.missing]), ("x", [Cell.num 1])]⟩)]⟩ :
        DataAnalysisTools).calculate_summary_stats "hmda" (some ["x"]) (some "g")
      = .ok (.byGroup [("nan", [("x", describeCol [])])]) ∧
    (⟨[("hmda", ⟨[("g", [Cell.missing]), ("x", [Cell.num 1])]⟩)]⟩ :
        DataAnalysisTools).calculate_summary_stats "hmda" (some ["x"]) none
      = .ok (.plain [("x", describeCol [Cell.num 1])]) ∧
    describeCol [] ≠ describeCol [Cell.num 1] ∧
    Cell.missing.pyStr = "nan" :=
  ⟨rfl, rfl, rfl, by decide, rfl⟩

/-- Appending a record carrying the next index preserves contiguity. -/
lemma contiguous_append (l : List StepRecord) (r : StepRecord)
    (hl : contiguousSteps l) (hr : r.step = l.length + 1) :
    contiguousSteps (l ++ [r]) := by
  intro i h
  rcases Nat.lt_or_ge i l.length with hi | hi
  · rw [List.get_append i hi]  -- deprecated alias kept for 4.14 compatibility
    exact hl i hi
  · have hlen : i = l.length := by
      have := h
      simp [List.length_append] at this
      omega
    subst hlen
    have : (l ++ [r]).get ⟨l.length, h⟩ = r := by
      rw [List.get_append_right] <;> simp
    rw [this, hr]

/-- The log shape of one `call_tools` invocation: either the step never
reached the execution phase and the log is untouched, or exactly one
record was appended carrying the next step index. -/
lemma call_tools_log_shape (fs : FileSystem) (now : String) (replRun : String → String)
    (state : AgentState) :
    (call_tools fs now replRun state).intermediate_outputs = state.intermediate_outputs ∨
    ∃ r : StepRecord, r.step = (state.intermediate_outputs.getD []).length + 1 ∧
      (call_tools fs now replRun state).intermediate_outputs
        = some ((state.intermediate_outputs.getD []) ++ [r]) := by
  cases hp : parseThoughtCode (state.messages.getLastD "") with
  | none =>
    left
    simp only [call_tools]
    rw [hp]
  | some tc =>
    obtain ⟨th, cb⟩ := tc
    cases hi : DataAnalysisTools.init fs state.input_data with
    | error e =>
      left
      simp only [call_tools]
      rw [hp]
      dsimp only
      rw [hi]
    | ok tools =>
      right
      simp only [call_tools]
      rw [hp]
      dsimp only
      rw [hi]
      dsimp only
      split
      · exact ⟨_, rfl, rfl⟩
      · exact ⟨_, rfl, rfl⟩

/-- C2 (amended): a code-execution invocation that reaches the execution
phase appends exactly one record to the log, its step index being the
log length plus one (so contiguity of indices is preserved); a
rationale/code parse failure or a tools-initialization failure
short-circuits with a diagnostic message and appends no record. -/
theorem claim_C2 (fs : FileSystem) (now : String) (replRun : String → String)
    (state : AgentState) :
    (parseThoughtCode (state.messages.getLastD "") = none →
      (call_tools fs now replRun state).intermediate_outputs = state.intermediate_outputs ∧
      (call_tools fs now replRun state).messages = state.messages ++
        ["Code execution failed. Invalid message format. Expected 'Thought:' followed by 'Code:' with Python code block."]) ∧
    (∀ th cb, parseThoughtCode (state.messages.getLastD "") = some (th, cb) →
      (∀ e, DataAnalysisTools.init fs state.input_data = .error e →
        (call_tools fs now replRun state).intermediate_outputs = state.intermediate_outputs) ∧
      (∀ tools, DataAnalysisTools.init fs state.input_data = .ok tools →
        ∃ r : StepRecord,
          (call_tools fs now replRun state).intermediate_outputs
            = some ((state.intermediate_outputs.getD []) ++ [r]) ∧
          r.step = (state.intermediate_outputs.getD []).length + 1 ∧
          (call_tools fs now replRun state).messages.length = state.messages.length + 1)) ∧
    (contiguousSteps (state.intermediate_outputs.getD []) →
      contiguousSteps ((call_tools fs now replRun state).intermediate_outputs.getD [])) := by
  refine ⟨?_, ?_, ?_⟩
  · intro hp
    constructor
    · simp only [call_tools]
      rw [hp]
    · simp only [call_tools]
      rw [hp]
  · intro th cb hp
    constructor
    · intro e hi
      simp only [call_tools]
      rw [hp]
      dsimp only
      rw [hi]
    · intro tools hi
      simp only [call_tools]
      rw [hp]
      dsimp only
      rw [hi]
      dsimp only
      split
      · exact ⟨_, rfl, rfl, by simp⟩
      · exact ⟨_, rfl, rfl, by simp⟩
  · intro hcont
    rcases call_tools_log_shape fs now replRun state with hsh | ⟨r, hr, hsh⟩
    · rw [hsh]
      exact hcont
    · rw [hsh]
      exact contiguous_append _ r hcont hr

/-- C2 witness: a well-formed Thought/Code message over a loadable
dataset appends exactly one record with step index 1. -/
theorem claim_C2_witness :
    ∃ r : StepRecord,
      (call_tools [("p.csv", ⟨[("a", [Cell.num 1])]⟩)] "ts" (fun _ => "")
          ⟨["Thought: check\nCode: ```python\ntools.get_columns('hmda')\n```"],
           some [("pickle", []), ("html", [])], [⟨"v", "p.csv", none⟩], none⟩).intermediate_outputs
        = some ((((⟨["Thought: check\nCode: ```python\ntools.get_columns('hmda')\n```"],
           some [("pickle", []), ("html", [])], [⟨"v", "p.csv", none⟩], none⟩ :
             AgentState)).intermediate_outputs.getD []) ++ [r]) ∧
      r.step = ((((⟨["Thought: check\nCode: ```python\ntools.get_columns('hmda')\n```"],
           some [("pickle", []), ("html", [])], [⟨"v", "p.csv", none⟩], none⟩ :
             AgentState)).intermediate_outputs.getD [])).length + 1 ∧
      (call_tools [("p.csv", ⟨[("a", [Cell.num 1])]⟩)] "ts" (fun _ => "")
          ⟨["Thought: check\nCode: ```python\ntools.get_columns('hmda')\n```"],
           some [("pickle", []), ("html", [])], [⟨"v", "p.csv", none⟩], none⟩).messages.length
        = (⟨["Thought: check\nCode: ```python\ntools.get_columns('hmda')\n```"],
           some [("pickle", []), ("html", [])], [⟨"v", "p.csv", none⟩], none⟩ :
             AgentState).messages.length + 1 :=
  ((claim_C2 [("p.csv", ⟨[("a", [Cell.num 1])]⟩)] "ts" (fun _ => "")
      ⟨["Thought: check\nCode: ```python\ntools.get_columns('hmda')\n```"],
       some [("pickle", []), ("html", [])], [⟨"v", "p.csv", none⟩], none⟩).2.1
    "check" "tools.get_columns('hmda')" rfl).2 ⟨[("hmda", ⟨[("a", [Cell.num 1])]⟩)]⟩ rfl

/-- C2 counterexample: a code-execution invocation whose message carries
a fenced code block but no `Thought:` segment appends **no** record to
`intermediate_outputs`, refuting "exactly one record per invocation". -/
theorem claim_C2_counterexample :
    (call_tools [] "ts" (fun _ => "")
        ⟨["```python\nx = 1\n```"], some [("pickle", []), ("html", [])], [], none⟩).intermediate_outputs
      = none ∧
    (call_tools [] "ts" (fun _ => "")
        ⟨["```python\nx = 1\n```"], some [("pickle", []), ("html", [])], [], none⟩).messages.length
      = 2 :=
  ⟨rfl, rfl⟩

/-- Membership in a fold of list concatenations. -/
lemma mem_foldr_append (L : List (List String)) (x : String) :
    x ∈ L.foldr (fun a b => a ++ b) [] ↔ ∃ l ∈ L, x ∈ l := by
  induction L with
  | nil => simp
  | cons a rest ih => simp [List.mem_append, ih]

/-- Membership in the accumulated html set of a controller state. -/
lemma mem_startingPaths_html (bot : PythonChatbot) (x : String) :
    x ∈ (startingPathsOf bot).html ↔ ∃ p ∈ bot.output_paths, x ∈ p.2.html := by
  unfold startingPathsOf
  simp only [List.mem_dedup, mem_foldr_append, List.mem_map]
  constructor
  · rintro ⟨l, ⟨p, hp, rfl⟩, hx⟩
    exact ⟨p, hp, hx⟩
  · rintro ⟨p, hp, hx⟩
    exact ⟨p.2.html, ⟨p, hp, rfl⟩, hx⟩

/-- Membership in the accumulated pickle set of a controller state. -/
lemma mem_startingPaths_pickle (bot : PythonChatbot) (x : String) :
    x ∈ (startingPathsOf bot).pickle ↔ ∃ p ∈ bot.output_paths, x ∈ p.2.pickle := by
  unfold startingPathsOf
  simp only [List.mem_dedup, mem_foldr_append, List.mem_map]
  constructor
  · rintro ⟨l, ⟨p, hp, rfl⟩, hx⟩
    exact ⟨p, hp, hx⟩
  · rintro ⟨p, hp, hx⟩
    exact ⟨p.2.pickle, ⟨p, hp, rfl⟩, hx⟩

/-- Membership in the Python set difference. -/
lemma mem_setDiff (a b : List String) (x : String) :
    x ∈ setDiff a b ↔ x ∈ a ∧ x ∉ b := by
  unfold setDiff
  simp [List.mem_filter, List.mem_dedup]

/-- Storing under a fresh turn key appends the entry. -/
lemma assocSetNat_fresh (m : List (Nat × OutputPaths)) (k : Nat) (v : OutputPaths)
    (hk : List.lookup k m = none) : assocSetNat m k v = m ++ [(k, v)] := by
  unfold assocSetNat
  rw [hk]
  rfl

/-- Looking up a key absent from the prefix reads the suffix. -/
lemma lookup_append_of_none {α β : Type} [BEq α] (m l : List (α × β)) (k : α)
    (h : List.lookup k m = none) : List.lookup k (m ++ l) = List.lookup k l := by
  induction m with
  | nil => rfl
  | cons a rest ih =>
    cases hb : (k == a.1) with
    | true => simp [List.lookup, hb] at h
    | false =>
      simp only [List.lookup, hb] at h
      simp only [List.cons_append, List.lookup, hb]
      exact ih h

/-- C5 (amended): for a turn whose graph run reports artifact paths, the
stored delta equals — per category, as sets — the reported post-turn
paths minus the pre-turn accumulated snapshot, and equals the post-turn
accumulated sets minus the pre-turn ones; it is stored keyed by the new
history length **minus one** (the index of the final message), not the
history length itself. -/
theorem claim_C5 (invoke : AgentState → GraphResult) (bot : PythonChatbot)
    (q : String) (input_data : List InputData) (rp : OutputPaths)
    (hrp : (invoke (mkInputState bot q input_data)).output_paths = some rp)
    (hk : List.lookup ((invoke (mkInputState bot q input_data)).messages.length - 1)
        bot.output_paths = none) :
    (user_sent_message invoke bot q input_data).chat_history
      = (invoke (mkInputState bot q input_data)).messages ∧
    List.lookup ((invoke (mkInputState bot q input_data)).messages.length - 1)
        (user_sent_message invoke bot q input_data).output_paths
      = some ⟨setDiff rp.pickle (startingPathsOf bot).pickle,
              setDiff rp.html (startingPathsOf bot).html⟩ ∧
    (∀ x, x ∈ setDiff rp.html (startingPathsOf bot).html ↔
      (x ∈ rp.html ∧ x ∉ (startingPathsOf bot).html)) ∧
    (∀ x, x ∈ setDiff rp.html (startingPathsOf bot).html ↔
      (x ∈ (startingPathsOf (user_sent_message invoke bot q input_data)).html ∧
       x ∉ (startingPathsOf bot).html)) ∧
    (∀ x, x ∈ setDiff rp.pickle (startingPathsOf bot).pickle ↔
      (x ∈ (startingPathsOf (user_sent_message invoke bot q input_data)).pickle ∧
       x ∉ (startingPathsOf bot).pickle)) := by
  have hops : (user_sent_message invoke bot q input_data).output_paths
      = bot.output_paths ++
        [(((invoke (mkInputState bot q input_data)).messages.length - 1),
          ⟨setDiff rp.pickle (startingPathsOf bot).pickle,
           setDiff rp.html (startingPathsOf bot).html⟩)] := by
    unfold user_sent_message
    dsimp only
    rw [hrp]
    dsimp only
    cases (invoke (mkInputState bot q input_data)).intermediate_outputs <;>
      exact assocSetNat_fresh _ _ _ hk
  have hch : (user_sent_message invoke bot q input_data).chat_history
      = (invoke (mkInputState bot q input_data)).messages := by
    unfold user_sent_message
    dsimp only
    rw [hrp]
    dsimp only
    cases (invoke (mkInputState bot q input_data)).intermediate_outputs <;> rfl
  refine ⟨hch, ?_, fun x => mem_setDiff _ _ x, ?_, ?_⟩
  · rw [hops, lookup_append_of_none _ _ _ hk]
    simp [List.lookup]
  · intro x
    have hpost : x ∈ (startingPathsOf (user_sent_message invoke bot q input_data)).html ↔
        x ∈ (startingPathsOf bot).html ∨
        x ∈ setDiff rp.html (startingPathsOf bot).html := by
      rw [mem_startingPaths_html]
      constructor
      · rintro ⟨p, hp, hx⟩
        rw [hops] at hp
        rcases List.mem_append.mp hp with h1 | h2
        · exact Or.inl ((mem_startingPaths_html bot x).mpr ⟨p, h1, hx⟩)
        · right
          simp only [List.mem_singleton] at h2
          rw [h2] at hx
          exact hx
      · rintro (h1 | h2)
        · obtain ⟨p, hp, hx⟩ := (mem_startingPaths_html bot x).mp h1
          exact ⟨p, by rw [hops]; exact List.mem_append_left _ hp, hx⟩
        · refine ⟨_, by rw [hops]; exact List.mem_append_right _ (List.mem_singleton_self _), h2⟩
    constructor
    · intro hx
      exact ⟨hpost.mpr (Or.inr hx), ((mem_setDiff _ _ x).mp hx).2⟩
    · rintro ⟨hin, hnot⟩
      rcases hpost.mp hin with h | h
      · exact absurd h hnot
      · exact h
  · intro x
    have hpost : x ∈ (startingPathsOf (user_sent_message invoke bot q input_data)).pickle ↔
        x ∈ (startingPathsOf bot).pickle ∨
        x ∈ setDiff rp.pickle (startingPathsOf bot).pickle := by
      rw [mem_startingPaths_pickle]
      constructor
      · rintro ⟨p, hp, hx⟩
        rw [hops] at hp
        rcases List.mem_append.mp hp with h1 | h2
        · exact Or.inl ((mem_startingPaths_pickle bot x).mpr ⟨p, h1, hx⟩)
        · right
          simp only [List.mem_singleton] at h2
          rw [h2] at hx
          exact hx
      · rintro (h1 | h2)
        · obtain ⟨p, hp, hx⟩ := (mem_startingPaths_pickle bot x).mp h1
          exact ⟨p, by rw [hops]; exact List.mem_append_left _ hp, hx⟩
        · refine ⟨_, by rw [hops]; exact List.mem_append_right _ (List.mem_singleton_self _), h2⟩
    constructor
    · intro hx
      exact ⟨hpost.mpr (Or.inr hx), ((mem_setDiff _ _ x).mp hx).2⟩
    · rintro ⟨hin, hnot⟩
      rcases hpost.mp hin with h | h
      · exact absurd h hnot
      · exact h

/-- C5 witness: one turn on a fresh controller produces history
["m1","m2"], stores the delta under key 1, and the delta set equations
hold. -/
theorem claim_C5_witness :
    (user_sent_message (fun _ => ⟨["m1", "m2"], some ⟨["p1.pickle"], ["f.html"]⟩, none⟩)
        reset_chat "q" []).chat_history
      = ((fun (_ : AgentState) =>
            (⟨["m1", "m2"], some ⟨["p1.pickle"], ["f.html"]⟩, none⟩ : GraphResult))
          (mkInputState reset_chat "q" [])).messages ∧
    List.lookup (((fun (_ : AgentState) =>
            (⟨["m1", "m2"], some ⟨["p1.pickle"], ["f.html"]⟩, none⟩ : GraphResult))
          (mkInputState reset_chat "q" [])).messages.length - 1)
        (user_sent_message (fun _ => ⟨["m1", "m2"], some ⟨["p1.pickle"], ["f.html"]⟩, none⟩)
          reset_chat "q" []).output_paths
      = some ⟨setDiff ["p1.pickle"] (startingPathsOf reset_chat).pickle,
              setDiff ["f.html"] (startingPathsOf reset_chat).html⟩ ∧
    (∀ x, x ∈ setDiff ["f.html"] (startingPathsOf reset_chat).html ↔
      (x ∈ ["f.html"] ∧ x ∉ (startingPathsOf reset_chat).html)) ∧
    (∀ x, x ∈ setDiff ["f.html"] (startingPathsOf reset_chat).html ↔
      (x ∈ (startingPathsOf (user_sent_message
              (fun _ => ⟨["m1", "m2"], some ⟨["p1.pickle"], ["f.html"]⟩, none⟩)
              reset_chat "q" [])).html ∧
       x ∉ (startingPathsOf reset_chat).html)) ∧
    (∀ x, x ∈ setDiff ["p1.pickle"] (startingPathsOf reset_chat).pickle ↔
      (x ∈ (startingPathsOf (user_sent_message
              (fun _ => ⟨["m1", "m2"], some ⟨["p1.pickle"], ["f.html"]⟩, none⟩)
              reset_chat "q" [])).pickle ∧
       x ∉ (startingPathsOf reset_chat).pickle)) :=
  claim_C5 (fun _ => ⟨["m1", "m2"], some ⟨["p1.pickle"], ["f.html"]⟩, none⟩)
    reset_chat "q" [] ⟨["p1.pickle"], ["f.html"]⟩ rfl rfl

/-- C5 counterexample: after a turn ending with 2 messages, the delta is
stored under key 1 — the new history length minus one — and nothing is
stored under key 2, refuting "keyed by the new history length". -/
theorem claim_C5_counterexample :
    List.lookup 2 (user_sent_message
        (fun _ => ⟨["m1", "m2"], some ⟨[], ["f.html"]⟩, none⟩) reset_chat "q" []).output_paths
      = none ∧
    List.lookup 1 (user_sent_message
        (fun _ => ⟨["m1", "m2"], some ⟨[], ["f.html"]⟩, none⟩) reset_chat "q" []).output_paths
      = some ⟨[], ["f.html"]⟩ ∧
    ((fun (_ : AgentState) => (⟨["m1", "m2"], some ⟨[], ["f.html"]⟩, none⟩ : GraphResult))
        (mkInputState reset_chat "q" [])).messages.length = 2 ∧
    (user_sent_message (fun _ => ⟨["m1", "m2"], some ⟨[], ["f.html"]⟩, none⟩)
        reset_chat "q" []).chat_history.length = 2 :=
  ⟨rfl, rfl, rfl, rfl⟩

end HMDA
